import Mathlib

/-!
# Nova Prophet supply-chain analysis engine: a shallow embedding

This file embeds the analysis and scenario-simulation engine of the
Nova Prophet supply-chain repository and proves properties of it.

The supply-chain graph is a directed graph with string-keyed nodes carrying
an attribute map, and typed edges (`relationship_type`).  The dynamic Python
attribute dictionaries are modelled by a fixed record (`NodeAttrs`) whose
fields default to the values that `dict.get(key, default)` returns at every
access site in the source; numeric computation, done with floats in the
source, is modelled exactly over `ℚ`, with `roundTo` standing for the Python
decimal rounding (no computation in this development reaches a rounding tie,
so the tie-breaking convention is immaterial).

Embedded components (names follow the source):
* `utils`: `get_component_countries`, `calculate_component_criticality`,
  `find_affected_products`;
* the `veritas` analyzer: `detect_single_points_of_failure`,
  `identify_geographical_concentration`, `calculate_resilience_score`;
* `impact_calculator`: `calculate_price_impacts`, `estimate_lead_time_impacts`,
  `calculate_product_impacts`, `determine_overall_impact`;
* `recommendation_generator`: tariff / disruption / geopolitical rule sets;
* `geopolitical_modeler.model_geopolitical_event`;
* `ScenarioModeler`: construction, `reset_scenario`, `model_tariff_change`,
  `model_supplier_disruption`, the `model_geopolitical_event` delegate and
  `combine_scenarios` with its compound-recommendation merge.

Object mutation in the source is modelled by explicit state passing: the
`ScenarioModeler` instance state is a `ModelerState` record and every
scenario method returns its result together with the successor state.
`copy.deepcopy` on the graph corresponds to plain value copying.
-/

namespace NovaProphet

/- Batteries marks the `Rat` arithmetic primitives `@[irreducible]`, which
blocks `decide` from evaluating concrete rational computations; restore the
default reducibility for this verification development. -/
attribute [local semireducible] Rat.mul Rat.inv Rat.add Rat.sub Rat.ofScientific

/-- Decimal rounding to `d` places, modelling the Python `round(x, d)` over the
exact rational values computed in this development. -/
def roundTo (d : ℕ) (x : ℚ) : ℚ := (round (x * (10 : ℚ) ^ d) : ℤ) / (10 : ℚ) ^ d

/-- Python `max(xs)` over a list of rationals; call sites guard emptiness as
the source does, `0` on `[]` mirrors the guarding `if xs else 0`. -/
def listMax : List ℚ → ℚ
  | [] => 0
  | x :: xs => xs.foldl max x

/-- Python `min(xs)`, with the same emptiness convention as `listMax`. -/
def listMin : List ℚ → ℚ
  | [] => 0
  | x :: xs => xs.foldl min x

/-- Worker for `dedupFirst`: drop elements already seen, remember new ones. -/
def dedupFirstAux {α : Type} [DecidableEq α] (seen : List α) : List α → List α
  | [] => []
  | a :: l => if a ∈ seen then dedupFirstAux seen l else a :: dedupFirstAux (a :: seen) l

/-- Keep the first occurrence of every element, dropping later duplicates.
This is the key order of a Python `dict` / `defaultdict` built by insertion,
which the source iterates to produce grouped results. -/
def dedupFirst {α : Type} [DecidableEq α] (l : List α) : List α :=
  dedupFirstAux [] l

theorem mem_dedupFirstAux {α : Type} [DecidableEq α] {a : α} :
    ∀ {seen l : List α}, a ∈ dedupFirstAux seen l ↔ a ∈ l ∧ a ∉ seen := by
  intro seen l
  induction l generalizing seen with
  | nil => simp [dedupFirstAux]
  | cons b l ih =>
    rw [dedupFirstAux]
    by_cases hb : b ∈ seen
    · simp only [if_pos hb, ih, List.mem_cons]
      constructor
      · rintro ⟨h1, h2⟩; exact ⟨Or.inr h1, h2⟩
      · rintro ⟨h1 | h1, h2⟩
        · exact absurd (h1 ▸ hb) h2
        · exact ⟨h1, h2⟩
    · simp only [if_neg hb, List.mem_cons, ih, List.mem_cons]
      by_cases hab : a = b
      · subst hab; simp [hb]
      · simp [hab]

theorem mem_dedupFirst {α : Type} [DecidableEq α] {a : α} {l : List α} :
    a ∈ dedupFirst l ↔ a ∈ l := by
  rw [dedupFirst, mem_dedupFirstAux]; simp

theorem nodup_dedupFirstAux {α : Type} [DecidableEq α] :
    ∀ (seen l : List α), (dedupFirstAux seen l).Nodup := by
  intro seen l
  induction l generalizing seen with
  | nil => simp [dedupFirstAux]
  | cons b l ih =>
    rw [dedupFirstAux]
    by_cases hb : b ∈ seen
    · simpa [if_pos hb] using ih seen
    · rw [if_neg hb]
      refine List.Nodup.cons ?_ (ih (b :: seen))
      intro hmem
      exact (mem_dedupFirstAux.mp hmem).2 (List.mem_cons_self _ _)

theorem nodup_dedupFirst {α : Type} [DecidableEq α] (l : List α) :
    (dedupFirst l).Nodup :=
  nodup_dedupFirstAux [] l

/-! ## The graph model -/

/-- Node attribute map.  Field defaults are the `dict.get` fallbacks used at
every access site of the source (`name` → `Unknown`, `category` →
`unknown`, booleans → `False`); `event_impact_level` / `shortage_level` are
only ever written by scenario replay and read with a `medium` / `moderate`
`.get` fallback, hence `Option`. -/
structure NodeAttrs where
  node_type : String := ""
  name : String := "Unknown"
  category : String := "unknown"
  critical : Bool := false
  tariff_vulnerable : Bool := false
  supply_constrained : Bool := false
  affected_by_event : Bool := false
  affected_by_shortage : Bool := false
  event_impact_level : Option String := none
  shortage_level : Option String := none
  deriving DecidableEq, Repr

/-- A directed typed edge; `rel` is the `relationship_type` attribute. -/
structure Edge where
  src : String
  dst : String
  rel : String
  deriving DecidableEq, Repr

/-- A NetworkX `DiGraph` as the engine uses it: insertion-ordered nodes with
attribute maps, and at most one directed edge per ordered pair (the builder
never inserts parallel edges). -/
structure Graph where
  nodes : List (String × NodeAttrs)
  edges : List Edge
  deriving DecidableEq, Repr

/-- Embeds `graph.nodes[id]`; a missing id yields the all-default attribute map
(the source only looks up ids obtained from the graph itself). -/
def Graph.attrsOf (g : Graph) (id : String) : NodeAttrs :=
  ((g.nodes.find? (fun p => p.1 == id)).map Prod.snd).getD {}

/-- Embeds `id in graph`. -/
def Graph.hasNode (g : Graph) (id : String) : Bool :=
  g.nodes.any (fun p => p.1 == id)

/-- Embeds `graph.in_edges(id, data=True)`. -/
def Graph.inEdges (g : Graph) (id : String) : List Edge :=
  g.edges.filter (fun e => e.dst == id)

/-- Embeds `graph.out_edges(id, data=True)`. -/
def Graph.outEdges (g : Graph) (id : String) : List Edge :=
  g.edges.filter (fun e => e.src == id)

/-- In-place update of the attribute map of one node
(`graph.nodes[id][key] = value`). -/
def Graph.setAttr (g : Graph) (id : String) (f : NodeAttrs → NodeAttrs) : Graph :=
  { g with nodes := g.nodes.map (fun p => if p.1 == id then (p.1, f p.2) else p) }

/-- Embeds `graph.has_edge(s, t)`. -/
def Graph.hasEdge (g : Graph) (s t : String) : Bool :=
  g.edges.any (fun e => e.src == s && e.dst == t)

/-- Embeds `graph.remove_edge(s, t)`. -/
def Graph.removeEdge (g : Graph) (s t : String) : Graph :=
  { g with edges := g.edges.filter (fun e => !(e.src == s && e.dst == t)) }

/-! ## `utils` (also duplicated as private analyzer methods in `veritas`) -/

/-- Embeds `get_component_countries` (`utils.py`; identical to the private analyzer method
`_get_component_countries`): names of `country` nodes reached by an
`ORIGINATES_FROM` out-edge. -/
def get_component_countries (g : Graph) (component_id : String) : List String :=
  (g.outEdges component_id).filterMap (fun e =>
    if e.rel == "ORIGINATES_FROM" && (g.attrsOf e.dst).node_type == "country" then
      some (g.attrsOf e.dst).name
    else none)

/-- Sources of the `SUPPLIES` in-edges of a component (the supplier list the
analyzer rebuilds at each use site). -/
def suppliers_of (g : Graph) (component_id : String) : List Edge :=
  (g.inEdges component_id).filter (fun e => e.rel == "SUPPLIES")

/-- The `CONTAINS` in-edges of a component: the products using it. -/
def contains_in_edges (g : Graph) (component_id : String) : List Edge :=
  (g.inEdges component_id).filter (fun e => e.rel == "CONTAINS")

/-- Embeds `calculate_component_criticality` (`utils.py`; line-for-line identical to
`SupplyChainAnalyzer._calculate_component_criticality` in `veritas`).  The
`product_id` parameter is accepted and unused, exactly as in the source. -/
def calculate_component_criticality (g : Graph) (component_id : String)
    (_product_id : Option String) : ℚ :=
  let a := g.attrsOf component_id
  let f1 : ℚ := if a.critical then 1.0 else 0.3
  let f2 : ℚ := if a.tariff_vulnerable then 0.8 else 0.4
  let nsup := (suppliers_of g component_id).length
  let f3 : ℚ := if nsup = 0 then 1.0 else if nsup = 1 then 0.9
                else if nsup ≤ 3 then 0.6 else 0.2
  let nc := (get_component_countries g component_id).length
  let f4 : ℚ := if nc = 1 then 0.8 else if nc = 2 then 0.5 else 0.2
  roundTo 2 (f1 * 0.4 + f2 * 0.25 + f3 * 0.2 + f4 * 0.15)

/-! ## `veritas` analyzer: single points of failure -/

/-- One record of `detect_single_points_of_failure`.  `spof_type` is the
source dict key `type`; the supplier fields are present only on
`single_supplier` records and `country` only on `single_country` records,
matching the two dict shapes built by the source. -/
structure SpofRecord where
  spof_type : String
  component_id : String
  component_name : String
  supplier_id : Option String := none
  supplier_name : Option String := none
  country : Option String := none
  affected_products : List (String × String)
  risk_level : String
  deriving DecidableEq, Repr

/-- The id-and-name product list built inside both SPOF passes:
sources of `CONTAINS` in-edges with their names. -/
def spof_products_using (g : Graph) (component_id : String) : List (String × String) :=
  (g.inEdges component_id).filterMap (fun e =>
    if e.rel == "CONTAINS" then some (e.src, (g.attrsOf e.src).name) else none)

/-- The body of the first loop of `detect_single_points_of_failure` for one
node: a `single_supplier` record when the node is a component with exactly
one `SUPPLIES` in-edge that is used in at least one product. -/
def single_supplier_record (g : Graph) (p : String × NodeAttrs) : Option SpofRecord :=
  if p.2.node_type == "component" then
    let sup := (suppliers_of g p.1).map Edge.src
    if sup.length = 1 then
      let prods := spof_products_using g p.1
      if prods ≠ [] then
        some { spof_type := "single_supplier", component_id := p.1,
               component_name := p.2.name,
               supplier_id := some (sup.headD (""))
               supplier_name := some (g.attrsOf (sup.headD (""))).name,
               affected_products := prods,
               risk_level := if p.2.critical then "high" else "medium" }
      else none
    else none
  else none

/-- First pass of `detect_single_points_of_failure`. -/
def single_supplier_pass (g : Graph) : List SpofRecord :=
  g.nodes.filterMap (single_supplier_record g)

/-- The body of the second loop for one node: a `single_country` record when
the node is a component with exactly one origin country that is used in at
least one product. -/
def single_country_record (g : Graph) (p : String × NodeAttrs) : Option SpofRecord :=
  if p.2.node_type == "component" then
    let cs := get_component_countries g p.1
    if cs.length = 1 then
      let prods := spof_products_using g p.1
      if prods ≠ [] then
        some { spof_type := "single_country", component_id := p.1,
               component_name := p.2.name,
               country := some (cs.headD ("")),
               affected_products := prods,
               risk_level := if p.2.critical then "high" else "medium" }
      else none
    else none
  else none

/-- Second pass of `detect_single_points_of_failure`. -/
def single_country_pass (g : Graph) : List SpofRecord :=
  g.nodes.filterMap (single_country_record g)

/-- Embeds `SupplyChainAnalyzer.detect_single_points_of_failure`: the
single-supplier pass followed by the single-country pass. -/
def detect_single_points_of_failure (g : Graph) : List SpofRecord :=
  single_supplier_pass g ++ single_country_pass g

/-! ## `veritas` analyzer: geographical concentration -/

/-- A bucket entry of `identify_geographical_concentration`. -/
structure CountryBucketEntry where
  component_id : String
  component_name : String
  critical : Bool
  tariff_vulnerable : Bool
  deriving DecidableEq, Repr

/-- One per-country analysis record. -/
structure CountryAnalysis where
  country : String
  total_components : ℕ
  critical_components : ℕ
  tariff_vulnerable_components : ℕ
  concentration_score : ℚ
  risk_level : String
  deriving DecidableEq, Repr

/-- The `(country, entry)` stream fed into the `defaultdict(list)` of
`identify_geographical_concentration`: every component node contributes one
entry per origin country (no in-use filter appears in the source). -/
def geo_pairs (g : Graph) : List (String × CountryBucketEntry) :=
  g.nodes.flatMap (fun p =>
    if p.2.node_type == "component" then
      (get_component_countries g p.1).map (fun c =>
        (c, { component_id := p.1, component_name := p.2.name,
              critical := p.2.critical, tariff_vulnerable := p.2.tariff_vulnerable }))
    else [])

/-- The per-country record built from one bucket. -/
def mk_country_analysis (g : Graph) (pairs : List (String × CountryBucketEntry))
    (c : String) : CountryAnalysis :=
  let comps := (pairs.filter (fun q => q.1 == c)).map Prod.snd
  let critical_count := (comps.filter (fun e => e.critical)).length
  let tv_count := (comps.filter (fun e => e.tariff_vulnerable)).length
  { country := c, total_components := comps.length,
    critical_components := critical_count,
    tariff_vulnerable_components := tv_count,
    concentration_score :=
      roundTo 3 (((comps.length : ℚ) * 0.4 + (critical_count : ℚ) * 0.6) /
        max 1 (g.nodes.length : ℚ)),
    risk_level := if critical_count > 5 then "high"
                  else if critical_count > 2 then "medium" else "low" }

/-- Descending order on `concentration_score`, the key of the final
`countries_analysis.sort(..., reverse=True)`. -/
def geoGE (a b : CountryAnalysis) : Prop :=
  b.concentration_score ≤ a.concentration_score

instance : DecidableRel geoGE :=
  fun a b => inferInstanceAs (Decidable (b.concentration_score ≤ a.concentration_score))

instance : IsTotal CountryAnalysis geoGE :=
  ⟨fun a b => le_total b.concentration_score a.concentration_score⟩

instance : IsTrans CountryAnalysis geoGE := ⟨fun _ _ _ h h2 => le_trans h2 h⟩

/-- Result of `identify_geographical_concentration`. -/
structure GeoResult where
  country_concentration : List CountryAnalysis
  highest_concentration : Option CountryAnalysis
  high_risk_countries : ℕ
  medium_risk_countries : ℕ
  low_risk_countries : ℕ
  deriving DecidableEq, Repr

/-- Embeds `SupplyChainAnalyzer.identify_geographical_concentration`. -/
def identify_geographical_concentration (g : Graph) : GeoResult :=
  let pairs := geo_pairs g
  let keys := dedupFirst (pairs.map Prod.fst)
  let analyses := keys.map (mk_country_analysis g pairs)
  let sorted := List.insertionSort geoGE analyses
  { country_concentration := sorted,
    highest_concentration := sorted.head?,
    high_risk_countries := (sorted.filter (fun c => c.risk_level == "high")).length,
    medium_risk_countries := (sorted.filter (fun c => c.risk_level == "medium")).length,
    low_risk_countries := (sorted.filter (fun c => c.risk_level == "low")).length }

/-! ## `veritas` analyzer: resilience score -/

/-- The five factor scores (0–100 scale). -/
structure FactorScores where
  supplier_diversity : ℚ
  geographical_diversity : ℚ
  component_criticality : ℚ
  tariff_vulnerability : ℚ
  alternative_sources : ℚ
  deriving DecidableEq, Repr

/-- The `metrics` sub-dict of a full resilience result. -/
structure ResilienceMetrics where
  total_components : ℕ
  unique_suppliers : ℕ
  unique_countries : ℕ
  critical_components : ℕ
  tariff_vulnerable_components : ℕ
  single_supplier_components : ℕ
  deriving DecidableEq, Repr

/-- Result of `calculate_resilience_score`.  `risk_level` and `metrics` are
`Option` because the early `if not products_to_analyze` return produces a
dict with neither key (only the score and the zeroed factors). -/
structure ResilienceResult where
  total_resilience_score : ℚ
  risk_level : Option String
  factors : FactorScores
  metrics : Option ResilienceMetrics
  deriving DecidableEq, Repr

/-- The product list scanned by `calculate_resilience_score` (and
`find_critical_components`): the `MANUFACTURES` targets of the company, or every
`product` node. -/
def products_to_analyze (g : Graph) (company_id : Option String) : List String :=
  match company_id with
  | some cid => (g.outEdges cid).filterMap (fun e =>
      if e.rel == "MANUFACTURES" then some e.dst else none)
  | none => g.nodes.filterMap (fun p =>
      if p.2.node_type == "product" then some p.1 else none)

/-- The `CONTAINS` targets of a product. -/
def components_of_product (g : Graph) (product_id : String) : List String :=
  (g.outEdges product_id).filterMap (fun e =>
    if e.rel == "CONTAINS" then some e.dst else none)

/-- Embeds `min(100, max(0, x))`, the clamp applied to every factor score. -/
def clamp0100 (x : ℚ) : ℚ := min 100 (max 0 x)

/-- Embeds `SupplyChainAnalyzer.calculate_resilience_score`.  Components are counted
once per containing product (the source iterates products and accumulates);
the supplier / country sets are modelled by first-occurrence deduplication of
the accumulated streams. -/
def calculate_resilience_score (g : Graph) (company_id : Option String) : ResilienceResult :=
  let prods := products_to_analyze g company_id
  if prods = [] then
    { total_resilience_score := 0, risk_level := none,
      factors := ⟨0, 0, 0, 0, 0⟩, metrics := none }
  else
    let comps := prods.flatMap (components_of_product g)
    let total := comps.length
    let critical_components := (comps.filter (fun c => (g.attrsOf c).critical)).length
    let tv_components := (comps.filter (fun c => (g.attrsOf c).tariff_vulnerable)).length
    let single_sup := (comps.filter (fun c => (suppliers_of g c).length ≤ 1)).length
    let unique_sup := (dedupFirst (comps.flatMap (fun c => (suppliers_of g c).map Edge.src))).length
    let unique_countries := (dedupFirst (comps.flatMap (get_component_countries g))).length
    let denom : ℚ := max 1 (total : ℚ)
    let s1 := clamp0100 ((unique_sup : ℚ) / denom * 50)
    let s2 := clamp0100 ((unique_countries : ℚ) / denom * 60)
    let s3 := clamp0100 (100 - (critical_components : ℚ) / denom * 100)
    let s4 := clamp0100 (100 - (tv_components : ℚ) / denom * 100)
    let s5 := clamp0100 (100 - (single_sup : ℚ) / denom * 100)
    let total_score := s1 * 0.25 + s2 * 0.2 + s3 * 0.3 + s4 * 0.15 + s5 * 0.1
    { total_resilience_score := roundTo 1 total_score,
      risk_level := some (if total_score ≥ 80 then "low"
                          else if total_score ≥ 60 then "medium" else "high"),
      factors := ⟨roundTo 1 s1, roundTo 1 s2, roundTo 1 s3, roundTo 1 s4, roundTo 1 s5⟩,
      metrics := some ⟨total, unique_sup, unique_countries, critical_components,
                       tv_components, single_sup⟩ }

/-! ## Affected-component / affected-product records -/

/-- An "affected component" dict as the scenario modelers build and the
impact calculator annotates it.  Each construction site in the source sets a
subset of these keys; fields that a site leaves out keep the default below,
which is exactly what the corresponding `.get(key, default)` reads produce
(`Option` fields model keys that are only added by later annotation). -/
structure CompRec where
  component_id : String
  component_name : String := "Unknown"
  critical : Bool := false
  component_type : String := "unknown"
  tariff_increase : Option ℚ := none
  estimated_price_increase : Option ℚ := none
  estimated_lead_time_increase_weeks : Option ℚ := none
  lead_time_impact : Option ℚ := none
  availability_impact : Option ℚ := none
  cost_impact : Option ℚ := none
  impact_sources : List String := []
  deriving DecidableEq, Repr

/-- A per-product affected-component entry built by `find_affected_products`. -/
structure PCompRec where
  component_id : String
  component_name : String
  critical : Bool
  deriving DecidableEq, Repr

/-- An "affected product" dict.  `find_affected_products` sets the first
eight fields and never a `critical` key, so the `critical` field of every
product record produced by the pipeline is `false` — the value that
the `critical`-keyed `.get` with a `False` fallback reads in
`generate_tariff_recommendations`. -/
structure AffProd where
  product_id : String
  product_name : String
  manufacturer : Option String
  manufacturer_id : Option String
  affected_components_count : ℕ
  critical_components_count : ℕ
  impact_score : ℕ
  affected_components : List PCompRec
  critical : Bool := false
  estimated_price_increase_percentage : Option ℚ := none
  estimated_lead_time_increase_weeks : Option ℚ := none
  lead_time_increase_weeks : Option ℚ := none
  availability_decrease_percent : Option ℚ := none
  cost_increase_percent : Option ℚ := none
  critical_components_affected : Option ℕ := none
  deriving DecidableEq, Repr

/-- The `(product_id, entry)` stream fed into the `defaultdict(list)` of
`find_affected_products`: for each affected component in order, one pair per
`CONTAINS` in-edge; names and flags are re-read from the graph. -/
def fap_pairs (g : Graph) (affected_components : List CompRec) :
    List (String × PCompRec) :=
  affected_components.flatMap (fun c =>
    (g.inEdges c.component_id).filterMap (fun e =>
      if e.rel == "CONTAINS" then
        some (e.src, { component_id := c.component_id,
                       component_name := (g.attrsOf c.component_id).name,
                       critical := (g.attrsOf c.component_id).critical })
      else none))

/-- First `MANUFACTURES` in-edge of a product (`break` after the first
match in the source). -/
def find_manufacturer (g : Graph) (product_id : String) : Option String :=
  ((g.inEdges product_id).find? (fun e => e.rel == "MANUFACTURES")).map Edge.src

/-- Descending order on `impact_score`, the key of the final sort of
`find_affected_products`. -/
def prodGE (a b : AffProd) : Prop := b.impact_score ≤ a.impact_score

instance : DecidableRel prodGE :=
  fun a b => inferInstanceAs (Decidable (b.impact_score ≤ a.impact_score))

instance : IsTotal AffProd prodGE :=
  ⟨fun a b => Nat.le_total b.impact_score a.impact_score⟩

instance : IsTrans AffProd prodGE := ⟨fun _ _ _ h h2 => Nat.le_trans h2 h⟩

/-- Embeds `find_affected_products` (`utils.py`): group containing products in
first-encounter order, score them (`2` per critical affected component, `1`
otherwise), resolve the manufacturer, and sort descending by impact score. -/
def find_affected_products (g : Graph) (affected_components : List CompRec) :
    List AffProd :=
  let pairs := fap_pairs g affected_components
  let keys := dedupFirst (pairs.map Prod.fst)
  let prods := keys.map (fun pid =>
    let comps := (pairs.filter (fun q => q.1 == pid)).map Prod.snd
    let m := find_manufacturer g pid
    { product_id := pid, product_name := (g.attrsOf pid).name,
      manufacturer := m.map (fun i => (g.attrsOf i).name),
      manufacturer_id := m,
      affected_components_count := comps.length,
      critical_components_count := (comps.filter (fun c => c.critical)).length,
      impact_score := (comps.map (fun c => if c.critical then 2 else 1)).sum,
      affected_components := comps })
  List.insertionSort prodGE prods

/-! ## `impact_calculator` -/

/-- Summary dict returned by `calculate_price_impacts`. -/
structure PriceImpacts where
  average_product_price_increase : ℚ
  max_product_price_increase : ℚ
  min_product_price_increase : ℚ
  deriving DecidableEq, Repr

/-- Embeds `calculate_price_impacts`.  The source mutates the two input lists
(adding `estimated_price_increase` to each component and
`estimated_price_increase_percentage` to each product) and returns the
summary; here the mutated lists are returned alongside it. -/
def calculate_price_impacts (affected_components : List CompRec)
    (affected_products : List AffProd) (tariff_increase : ℚ) :
    List CompRec × List AffProd × PriceImpacts :=
  let comps := affected_components.map (fun c =>
    { c with estimated_price_increase := some (roundTo 2 (tariff_increase * 0.4)) })
  let prods := affected_products.map (fun p =>
    let component_impact : ℚ :=
      (p.affected_components.map (fun pc =>
        ((comps.find? (fun ac => ac.component_id == pc.component_id)).map (fun ac =>
          ac.estimated_price_increase.getD 0 *
            (if pc.critical then (0.5 : ℚ) else 0.2))).getD 0)).sum
    let inc := roundTo 2 (min component_impact tariff_increase)
    { p with estimated_price_increase_percentage := some inc })
  let incs := prods.map (fun p => p.estimated_price_increase_percentage.getD 0)
  (comps, prods,
   { average_product_price_increase := roundTo 2 (incs.sum / max 1 (prods.length : ℚ)),
     max_product_price_increase := if prods = [] then 0 else listMax incs,
     min_product_price_increase := if prods = [] then 0 else listMin incs })

/-- Summary dict returned by `estimate_lead_time_impacts`. -/
structure LeadTimeImpacts where
  average_lead_time_increase_weeks : ℚ
  max_lead_time_increase_weeks : ℚ
  estimated_recovery_time_months : ℤ
  deriving DecidableEq, Repr

/-- Embeds `estimate_lead_time_impacts`.  The increase of a product is the maximum
annotated increase among its *critical* affected components (non-critical
ones never drive it). -/
def estimate_lead_time_impacts (affected_components : List CompRec)
    (affected_products : List AffProd) (severity_factor duration_factor : ℚ) :
    List CompRec × List AffProd × LeadTimeImpacts :=
  let base := 3 * severity_factor * duration_factor
  let comps := affected_components.map (fun c =>
    let inc := roundTo 1 (base * (if c.critical then (1.5 : ℚ) else 1))
    { c with estimated_lead_time_increase_weeks := some inc })
  let prods := affected_products.map (fun p =>
    let m := p.affected_components.foldl (fun cur pc =>
      match comps.find? (fun ac => ac.component_id == pc.component_id) with
      | some ac =>
        if pc.critical ∧ ac.estimated_lead_time_increase_weeks.getD 0 > cur then
          ac.estimated_lead_time_increase_weeks.getD 0
        else cur
      | none => cur) 0
    { p with estimated_lead_time_increase_weeks := some m })
  let vals := prods.map (fun p => p.estimated_lead_time_increase_weeks.getD 0)
  (comps, prods,
   { average_lead_time_increase_weeks :=
       roundTo 1 (vals.sum / max 1 (prods.length : ℚ)),
     max_lead_time_increase_weeks := if prods = [] then 0 else listMax vals,
     estimated_recovery_time_months := round (duration_factor * 12) })

/-- The per-aspect multipliers of a geopolitical event type. -/
structure EventFactors where
  lead_time : ℚ
  availability : ℚ
  cost : ℚ
  deriving DecidableEq, Repr

/-- Summary dict returned by `calculate_product_impacts`. -/
structure GeoProductImpacts where
  average_lead_time_increase : ℚ
  average_availability_decrease : ℚ
  average_cost_increase : ℚ
  max_lead_time_increase : ℚ
  max_availability_decrease : ℚ
  max_cost_increase : ℚ
  deriving DecidableEq, Repr

/-- Embeds `calculate_product_impacts`.  The `event_factors` and `severity_factor`
arguments are unused by the body, as in the source (impacts were already
baked into the component records).  Per product the summed impacts are
divided by the *total* affected-component count of the product, so an entry
with no match in `affected_components` averages in as zero. -/
def calculate_product_impacts (affected_products : List AffProd)
    (affected_components : List CompRec) (_event_factors : EventFactors)
    (_severity_factor : ℚ) : List AffProd × GeoProductImpacts :=
  let prods := affected_products.map (fun p =>
    let step := p.affected_components.foldl (fun (acc : ℚ × ℚ × ℚ × ℕ) pc =>
      match affected_components.find? (fun ac => ac.component_id == pc.component_id) with
      | some ac =>
        let mult : ℚ := if pc.critical then 1.5 else 1.0
        (acc.1 + ac.lead_time_impact.getD 0 * mult,
         acc.2.1 + ac.availability_impact.getD 0 * mult,
         acc.2.2.1 + ac.cost_impact.getD 0 * mult,
         acc.2.2.2 + (if pc.critical then 1 else 0))
      | none => acc) (0, 0, 0, 0)
    let n : ℚ := max 1 (p.affected_components.length : ℚ)
    { p with lead_time_increase_weeks := some (roundTo 1 (step.1 / n)),
             availability_decrease_percent := some (roundTo 1 (min (step.2.1 / n) 100)),
             cost_increase_percent := some (roundTo 1 (step.2.2.1 / n)),
             critical_components_affected := some step.2.2.2 })
  let lead := prods.map (fun p => p.lead_time_increase_weeks.getD 0)
  let avail := prods.map (fun p => p.availability_decrease_percent.getD 0)
  let cost := prods.map (fun p => p.cost_increase_percent.getD 0)
  let n : ℚ := (prods.length : ℚ)
  (prods,
   { average_lead_time_increase := roundTo 1 (if prods = [] then 0 else lead.sum / n),
     average_availability_decrease := roundTo 1 (if prods = [] then 0 else avail.sum / n),
     average_cost_increase := roundTo 1 (if prods = [] then 0 else cost.sum / n),
     max_lead_time_increase := if prods = [] then 0 else listMax lead,
     max_availability_decrease := if prods = [] then 0 else listMax avail,
     max_cost_increase := if prods = [] then 0 else listMax cost })

/-- Embeds `determine_overall_impact`: high criteria first, then medium, else low. -/
def determine_overall_impact (new_resilience base_resilience : ℚ)
    (product_impacts : GeoProductImpacts) : String :=
  let resilience_drop := base_resilience - new_resilience
  if resilience_drop > 15 ∨ product_impacts.average_lead_time_increase > 8 ∨
     product_impacts.average_availability_decrease > 40 ∨
     product_impacts.average_cost_increase > 20 then "high"
  else if resilience_drop > 7 ∨ product_impacts.average_lead_time_increase > 4 ∨
     product_impacts.average_availability_decrease > 20 ∨
     product_impacts.average_cost_increase > 10 then "medium"
  else "low"

/-! ## `recommendation_generator` -/

/-- A recommendation record. -/
structure Recommendation where
  action : String
  description : String
  priority : String
  estimated_benefit : String
  implementation_difficulty : String
  timeframe : String
  deriving DecidableEq, Repr

/-- The Python keyed `max` over affected components keyed by
`estimated_price_increase` (first maximum wins), `none` on `[]`. -/
def first_max_by_price_increase (l : List CompRec) : Option CompRec :=
  l.foldl (fun acc c =>
    match acc with
    | none => some c
    | some m =>
      if c.estimated_price_increase.getD 0 > m.estimated_price_increase.getD 0 then
        some c
      else some m) none

/-- Embeds `generate_tariff_recommendations`: relocate sourcing if any affected
component exists; strategic pricing if the increase of some product exceeds 2;
tariff exemptions always; product redesign if some component with increase
above 3 sits in an affected product whose `critical` key is truthy (product
dicts never carry that key in the pipeline). -/
def generate_tariff_recommendations (affected_components : List CompRec)
    (affected_products : List AffProd) : List Recommendation :=
  let rec1 : List Recommendation :=
    match first_max_by_price_increase affected_components with
    | some most_affected =>
      [{ action := "relocate_sourcing",
         description := "Consider sourcing " ++ most_affected.component_name ++
           " and similar components from countries not affected by the tariff",
         priority := "high",
         estimated_benefit := "Eliminate direct tariff impact on affected components",
         implementation_difficulty := "medium",
         timeframe := "medium_term" }]
    | none => []
  let high_impact_products := affected_products.filter
    (fun p => p.estimated_price_increase_percentage.getD 0 > 2)
  let rec2 : List Recommendation :=
    if affected_products ≠ [] ∧ high_impact_products ≠ [] then
      [{ action := "strategic_pricing",
         description := "Adjust pricing strategy for " ++
           toString high_impact_products.length ++
           " high-impact products to maintain market competitiveness",
         priority := "high",
         estimated_benefit := "Maintain market share while minimizing profit impact",
         implementation_difficulty := "low",
         timeframe := "immediate" }]
    else []
  let rec3 : Recommendation :=
    { action := "tariff_exemptions",
      description := "Pursue possible tariff exemptions or exclusions for critical components",
      priority := "medium",
      estimated_benefit := "Potential significant savings on affected components",
      implementation_difficulty := "high",
      timeframe := "medium_term" }
  let highly_affected_criticals := affected_components.filter (fun c =>
    decide (c.estimated_price_increase.getD 0 > 3) &&
    affected_products.any (fun p =>
      p.critical &&
      p.affected_components.any (fun ac => ac.component_id == c.component_id)))
  let rec4 : List Recommendation :=
    if highly_affected_criticals ≠ [] then
      [{ action := "product_redesign",
         description := "Evaluate product redesign to reduce dependency on heavily tariffed components",
         priority := "medium",
         estimated_benefit := "Long-term resilience to similar tariff actions",
         implementation_difficulty := "high",
         timeframe := "long_term" }]
    else []
  rec1 ++ rec2 ++ [rec3] ++ rec4

/-- Embeds `generate_disruption_recommendations`. -/
def generate_disruption_recommendations (_supplier_id : String)
    (affected_components : List CompRec) (affected_products : List AffProd)
    (disruption_level : String) (duration_months : ℕ) : List Recommendation :=
  let critical_components := affected_components.filter (fun c => c.critical)
  let rec1 : List Recommendation :=
    if affected_components ≠ [] then
      if critical_components ≠ [] then
        [{ action := "alternative_suppliers",
           description := "Immediately identify alternative suppliers for " ++
             toString critical_components.length ++ " critical components",
           priority := "high",
           estimated_benefit := "Maintain production capability for critical products",
           implementation_difficulty := "medium",
           timeframe := "immediate" }]
      else
        [{ action := "alternative_suppliers",
           description := "Identify alternative suppliers for affected components",
           priority := "medium",
           estimated_benefit := "Ensure continued component availability",
           implementation_difficulty := "medium",
           timeframe := "short_term" }]
    else []
  let rec2 : Recommendation :=
    { action := "inventory_strategy",
      description := "Review and adjust inventory levels for affected components",
      priority := "high",
      estimated_benefit := "Buffer against short-term disruption",
      implementation_difficulty := "low",
      timeframe := "immediate" }
  let rec3 : List Recommendation :=
    if disruption_level == "complete" ∧ duration_months > 1 then
      [{ action := "production_adjustment",
         description := "Temporarily adjust production schedules for affected products",
         priority := "high",
         estimated_benefit := "Optimize production based on component availability",
         implementation_difficulty := "medium",
         timeframe := "immediate" }]
    else []
  let rec4 : List Recommendation :=
    if disruption_level == "complete" ∧ duration_months > 3 then
      [{ action := "supplier_diversification",
         description := "Implement long-term supplier diversification strategy",
         priority := "medium",
         estimated_benefit := "Enhanced resilience against future disruptions",
         implementation_difficulty := "high",
         timeframe := "long_term" }]
    else []
  let high_impact_products := affected_products.filter (fun p =>
    decide (p.critical_components_count > 0) &&
    decide (p.estimated_lead_time_increase_weeks.getD 0 > 2))
  let rec5 : List Recommendation :=
    if affected_products ≠ [] ∧ high_impact_products ≠ [] then
      [{ action := "customer_communication",
         description := "Proactively communicate with customers about potential delays",
         priority := "high",
         estimated_benefit := "Maintain customer relationships despite disruption",
         implementation_difficulty := "low",
         timeframe := "immediate" }]
    else []
  rec1 ++ [rec2] ++ rec3 ++ rec4 ++ rec5

/-- Embeds `generate_geopolitical_recommendations`. -/
def generate_geopolitical_recommendations (country event_type severity : String)
    (duration_months : ℕ) (affected_components : List CompRec)
    (affected_products : List AffProd) : List Recommendation :=
  let critical_components := affected_components.filter (fun c => c.critical)
  let rec1 : List Recommendation :=
    if affected_components ≠ [] ∧ critical_components ≠ [] then
      [{ action := "alternative_sourcing",
         description := "Immediately secure alternative sources for " ++
           toString critical_components.length ++
           " critical components from " ++ country,
         priority := "high",
         estimated_benefit := "Maintain production of critical products",
         implementation_difficulty := if severity == "high" then "high" else "medium",
         timeframe := "immediate" }]
    else []
  let rec2 : List Recommendation :=
    if (event_type == "trade_restriction" ∨ event_type == "conflict") ∧
       (severity == "medium" ∨ severity == "high") then
      [{ action := "inventory_buffer",
         description := "Increase safety stock levels for components sourced from " ++ country,
         priority := "high",
         estimated_benefit := "Buffer against supply disruptions",
         implementation_difficulty := "medium",
         timeframe := "immediate" }]
    else []
  let rec3 : List Recommendation :=
    if severity == "high" ∧ affected_products ≠ [] then
      [{ action := "production_prioritization",
         description := "Prioritize production of high-margin and strategic products",
         priority := "high",
         estimated_benefit := "Optimize limited component availability",
         implementation_difficulty := "medium",
         timeframe := "short_term" }]
    else []
  let rec4 : List Recommendation :=
    if duration_months > 6 ∨ severity == "high" then
      [{ action := "geographic_diversification",
         description := "Develop long-term strategy to reduce dependency on " ++
           country ++ " for critical components",
         priority := "medium",
         estimated_benefit := "Long-term supply chain resilience",
         implementation_difficulty := "high",
         timeframe := "long_term" }]
    else []
  let rec5 : List Recommendation :=
    if event_type == "trade_restriction" then
      [{ action := "trade_compliance",
         description := "Engage with trade compliance experts to navigate new restrictions",
         priority := "high",
         estimated_benefit := "Ensure regulatory compliance while minimizing disruption",
         implementation_difficulty := "medium",
         timeframe := "immediate" }]
    else if event_type == "conflict" then
      [{ action := "logistics_rerouting",
         description := "Develop alternative logistics routes to avoid conflict zones",
         priority := "high",
         estimated_benefit := "Maintain supply chain continuity",
         implementation_difficulty := "high",
         timeframe := "immediate" }]
    else if event_type == "natural_disaster" then
      [{ action := "supplier_recovery",
         description := "Provide support to key suppliers for faster recovery",
         priority := "medium",
         estimated_benefit := "Accelerate supply chain recovery",
         implementation_difficulty := "medium",
         timeframe := "short_term" }]
    else []
  rec1 ++ rec2 ++ rec3 ++ rec4 ++ rec5

/-! ## `geopolitical_modeler` -/

/-- The `resilience_impact` sub-dict of every scenario result. -/
structure RImpact where
  before : ℚ
  after : ℚ
  change : ℚ
  deriving DecidableEq, Repr

/-- The `impact_assessment` sub-dict of a geopolitical result. -/
structure GeoImpactAssessment where
  lead_time : ℚ
  availability : ℚ
  cost : ℚ
  overall_impact_level : String
  deriving DecidableEq, Repr

/-- Result of `model_geopolitical_event`. -/
structure GeoEventResult where
  scenario_type : String
  country : String
  event_type : String
  severity : String
  duration_months : ℕ
  affected_components_count : ℕ
  affected_components : List CompRec
  affected_products_count : ℕ
  affected_products : List AffProd
  resilience_impact : RImpact
  impact_assessment : GeoImpactAssessment
  recovery_estimated_months : ℤ
  recommendations : List Recommendation
  deriving DecidableEq, Repr

/-- The `event_type_mapping` table (unknown types fall back to `0.5` each). -/
def geop_event_factors (event_type : String) : EventFactors :=
  if event_type == "trade_restriction" then ⟨0.5, 0.3, 0.8⟩
  else if event_type == "conflict" then ⟨0.9, 0.8, 0.6⟩
  else if event_type == "natural_disaster" then ⟨0.7, 0.9, 0.4⟩
  else if event_type == "political_change" then ⟨0.3, 0.2, 0.5⟩
  else ⟨0.5, 0.5, 0.5⟩

/-- The `severity_mapping` table (unknown severities fall back to `0.5`). -/
def geop_severity_factor (severity : String) : ℚ :=
  if severity == "low" then 0.3
  else if severity == "medium" then 0.6
  else if severity == "high" then 0.9 else 0.5

namespace GeopoliticalModeler

/-- Embeds `geopolitical_modeler.model_geopolitical_event`.  The function receives
the working graph of the caller and an analyzer bound to that same graph, so the
baseline resilience it reports is recomputed from `graph` here; mutation
happens only on a deep copy (`modified_graph`), hence the input graph is
left untouched and no successor graph is returned. -/
def model_geopolitical_event (graph : Graph) (country event_type severity : String)
    (duration_months : ℕ) : GeoEventResult :=
  let base_resilience := calculate_resilience_score graph none
  let country_components : List CompRec := graph.nodes.filterMap (fun p =>
    if p.2.node_type == "component" ∧ country ∈ get_component_countries graph p.1 then
      some { component_id := p.1, component_name := p.2.name, critical := p.2.critical }
    else none)
  let affected_products := find_affected_products graph country_components
  let severity_factor := geop_severity_factor severity
  let event_factors := geop_event_factors event_type
  let modified_graph := country_components.foldl (fun g c =>
    g.setAttr c.component_id (fun a =>
      { a with affected_by_event := true, event_impact_level := some severity })) graph
  let comps := country_components.map (fun c =>
    { c with lead_time_impact := some (roundTo 1 (severity_factor * event_factors.lead_time * 10)),
             availability_impact := some (roundTo 1 (severity_factor * event_factors.availability * 100)),
             cost_impact := some (roundTo 1 (severity_factor * event_factors.cost * 30)) })
  let new_resilience := calculate_resilience_score modified_graph none
  let pi := calculate_product_impacts affected_products comps event_factors severity_factor
  let prods := pi.1
  let product_impacts := pi.2
  let recommendations := generate_geopolitical_recommendations country event_type
    severity duration_months comps prods
  let overall_impact := determine_overall_impact new_resilience.total_resilience_score
    base_resilience.total_resilience_score product_impacts
  { scenario_type := "geopolitical_event", country := country,
    event_type := event_type, severity := severity,
    duration_months := duration_months,
    affected_components_count := comps.length,
    affected_components := comps.take 15,
    affected_products_count := prods.length,
    affected_products := prods.take 10,
    resilience_impact :=
      { before := base_resilience.total_resilience_score,
        after := new_resilience.total_resilience_score,
        change := roundTo 2 (new_resilience.total_resilience_score -
          base_resilience.total_resilience_score) },
    impact_assessment :=
      { lead_time := product_impacts.average_lead_time_increase,
        availability := product_impacts.average_availability_decrease,
        cost := product_impacts.average_cost_increase,
        overall_impact_level := overall_impact },
    recovery_estimated_months := max (duration_months : ℤ) (round (severity_factor * 18)),
    recommendations := recommendations }

end GeopoliticalModeler

/-! ## `ScenarioModeler` -/

/-- The mutable state of a `ScenarioModeler` instance: the shared original
graph, the private working deep copy, and the baseline resilience captured
once at construction (from the freshly copied, still unmutated graph). -/
structure ModelerState where
  original_graph : Graph
  graph : Graph
  base_resilience : ResilienceResult
  deriving DecidableEq, Repr

namespace ScenarioModeler

/-- Embeds `ScenarioModeler.__init__` (with the default, internally constructed
analyzer): deep-copy the graph and score the copy. -/
def init (g : Graph) : ModelerState :=
  { original_graph := g, graph := g,
    base_resilience := calculate_resilience_score g none }

/-- Embeds `ScenarioModeler.reset_scenario`: replace the working copy by a fresh
deep copy of the original graph (and rebind the analyzer to it). -/
def reset_scenario (st : ModelerState) : ModelerState :=
  { st with graph := st.original_graph }

/-- Result of `model_tariff_change`. -/
structure TariffResult where
  scenario_type : String
  country : String
  increase_percentage : ℚ
  affected_components : List CompRec
  affected_products_count : ℕ
  affected_products : List AffProd
  resilience_impact : RImpact
  price_impacts : PriceImpacts
  recommendations : List Recommendation
  deriving DecidableEq, Repr

/-- The node scan of `model_tariff_change`: walk the nodes of the working copy,
and for every component originating from `country` whose category passes the
optional filter, set `tariff_vulnerable` in place and record it.  (The
source also formats a `country_id` string here that it never uses; matching
is by country *name*.) -/
def tariff_scan (g : Graph) (country : String)
    (affected_component_types : Option (List String))
    (increase_percentage : ℚ) : Graph × List CompRec :=
  g.nodes.foldl (fun acc p =>
    if p.2.node_type == "component" ∧ country ∈ get_component_countries acc.1 p.1 then
      let component_type := p.2.category
      if affected_component_types.elim true (fun ts => ts.contains component_type) = true then
        (acc.1.setAttr p.1 (fun a => { a with tariff_vulnerable := true }),
         acc.2 ++ [{ component_id := p.1, component_name := p.2.name,
                     tariff_increase := some increase_percentage,
                     component_type := component_type }])
      else acc
    else acc) (g, [])

/-- Embeds `ScenarioModeler.model_tariff_change`. -/
def model_tariff_change (st : ModelerState) (country : String)
    (increase_percentage : ℚ) (affected_component_types : Option (List String)) :
    TariffResult × ModelerState :=
  let st := reset_scenario st
  let scan := tariff_scan st.graph country affected_component_types increase_percentage
  let affected_components := scan.2
  let st := { st with graph := scan.1 }
  if affected_components ≠ [] then
    let new_resilience := calculate_resilience_score st.graph none
    let affected_products := find_affected_products st.graph affected_components
    let step := calculate_price_impacts affected_components affected_products increase_percentage
    let comps := step.1
    let prods := step.2.1
    let price_impacts := step.2.2
    let recommendations := generate_tariff_recommendations comps prods
    ({ scenario_type := "tariff_change", country := country,
       increase_percentage := increase_percentage,
       affected_components := comps,
       affected_products_count := prods.length,
       affected_products := prods.take 10,
       resilience_impact :=
         { before := st.base_resilience.total_resilience_score,
           after := new_resilience.total_resilience_score,
           change := roundTo 2 (new_resilience.total_resilience_score -
             st.base_resilience.total_resilience_score) },
       price_impacts := price_impacts,
       recommendations := recommendations }, st)
  else
    ({ scenario_type := "tariff_change", country := country,
       increase_percentage := increase_percentage,
       affected_components := [],
       affected_products_count := 0,
       affected_products := [],
       resilience_impact :=
         { before := st.base_resilience.total_resilience_score,
           after := st.base_resilience.total_resilience_score,
           change := 0 },
       price_impacts := ⟨0, 0, 0⟩,
       recommendations := [] }, st)

/-- Result of `model_supplier_disruption`; the unknown-supplier early return
produces a dict with only the first six keys (plus `impact_assessment`),
hence the `Option` fields. -/
structure DisruptionResult where
  scenario_type : String
  supplier : Option String := none
  supplier_id : Option String := none
  supplier_name : Option String := none
  disruption_level : String
  duration_months : ℕ
  affected_components_count : Option ℕ := none
  affected_components : List CompRec := []
  affected_products_count : Option ℕ := none
  affected_products : List AffProd := []
  resilience_impact : Option RImpact := none
  lead_time_impacts : Option LeadTimeImpacts := none
  recommendations : List Recommendation := []
  impact_assessment : Option String := none
  deriving DecidableEq, Repr

/-- Embeds `ScenarioModeler.model_supplier_disruption`. -/
def model_supplier_disruption (st : ModelerState) (supplier_id : String)
    (disruption_level : String) (duration_months : ℕ) :
    DisruptionResult × ModelerState :=
  let st := reset_scenario st
  if ¬ st.graph.hasNode supplier_id then
    ({ scenario_type := "supplier_disruption", supplier := some "Unknown",
       disruption_level := disruption_level, duration_months := duration_months,
       impact_assessment := some "Supplier not found in graph" }, st)
  else
    let supplier_name := (st.graph.attrsOf supplier_id).name
    let affected_components : List CompRec :=
      (st.graph.outEdges supplier_id).filterMap (fun e =>
        if e.rel == "SUPPLIES" then
          some { component_id := e.dst,
                 component_name := (st.graph.attrsOf e.dst).name,
                 critical := (st.graph.attrsOf e.dst).critical }
        else none)
    let affected_products := find_affected_products st.graph affected_components
    let severity_factor : ℚ := if disruption_level == "complete" then 1.0 else 0.6
    let duration_factor : ℚ := min 1 ((duration_months : ℚ) / 12)
    let graph2 := affected_components.foldl (fun g c =>
      if disruption_level == "complete" then
        if g.hasEdge supplier_id c.component_id then
          g.removeEdge supplier_id c.component_id
        else g
      else g.setAttr c.component_id (fun a => { a with supply_constrained := true }))
      st.graph
    let st := { st with graph := graph2 }
    let new_resilience := calculate_resilience_score st.graph none
    let step := estimate_lead_time_impacts affected_components affected_products
      severity_factor duration_factor
    let comps := step.1
    let prods := step.2.1
    let lead_time_impacts := step.2.2
    let recommendations := generate_disruption_recommendations supplier_id comps
      prods disruption_level duration_months
    ({ scenario_type := "supplier_disruption",
       supplier_id := some supplier_id,
       supplier_name := some supplier_name,
       disruption_level := disruption_level, duration_months := duration_months,
       affected_components_count := some comps.length,
       affected_components := comps,
       affected_products_count := some prods.length,
       affected_products := prods.take 10,
       resilience_impact := some
         { before := st.base_resilience.total_resilience_score,
           after := new_resilience.total_resilience_score,
           change := roundTo 2 (new_resilience.total_resilience_score -
             st.base_resilience.total_resilience_score) },
       lead_time_impacts := some lead_time_impacts,
       recommendations := recommendations }, st)

/-- Embeds `ScenarioModeler.model_geopolitical_event` delegates to the module
function on the *current* working copy (no `reset_scenario` call), passing
the analyzer that is bound to that same copy; the modeler state is left
unchanged. -/
def model_geopolitical_event (st : ModelerState) (country event_type severity : String)
    (duration_months : ℕ) : GeoEventResult × ModelerState :=
  (GeopoliticalModeler.model_geopolitical_event st.graph country event_type
    severity duration_months, st)

end ScenarioModeler

/-! ## `combine_scenarios` -/

/-- The keys `combine_scenarios` reads (via `.get`) from an already-computed
scenario result dict.  Absent keys are `none` / `[]`, exactly the `.get`
fallbacks. -/
structure ScenarioView where
  scenario_type : String
  affected_components : List CompRec := []
  supplier_id : Option String := none
  disruption_level : Option String := none
  severity : Option String := none
  shortage_level : Option String := none
  recommendations : List Recommendation := []
  deriving DecidableEq, Repr

namespace ScenarioModeler

/-- The keys of a tariff result dict that `combine_scenarios` reads. -/
def TariffResult.toView (r : TariffResult) : ScenarioView :=
  { scenario_type := r.scenario_type,
    affected_components := r.affected_components,
    recommendations := r.recommendations }

/-- The keys of a disruption result dict that `combine_scenarios` reads. -/
def DisruptionResult.toView (r : DisruptionResult) : ScenarioView :=
  { scenario_type := r.scenario_type,
    affected_components := r.affected_components,
    supplier_id := r.supplier_id,
    disruption_level := some r.disruption_level,
    recommendations := r.recommendations }

/-- Replay of the mutation effects of one scenario onto the working copy (the
per-`scenario_type` branches of `combine_scenarios`).  A `complete`
disruption with a live edge removes the edge; otherwise the component is
flagged `supply_constrained`. -/
def apply_scenario_to_graph (g : Graph) (s : ScenarioView) : Graph :=
  if s.scenario_type == "tariff_change" then
    s.affected_components.foldl (fun g c =>
      if g.hasNode c.component_id then
        g.setAttr c.component_id (fun a => { a with tariff_vulnerable := true })
      else g) g
  else if s.scenario_type == "supplier_disruption" then
    s.affected_components.foldl (fun g c =>
      if s.disruption_level == some "complete" ∧
         s.supplier_id.elim false (fun sid => g.hasEdge sid c.component_id) = true then
        g.removeEdge (s.supplier_id.getD ("")) c.component_id
      else if g.hasNode c.component_id then
        g.setAttr c.component_id (fun a => { a with supply_constrained := true })
      else g) g
  else if s.scenario_type == "geopolitical_event" then
    s.affected_components.foldl (fun g c =>
      if g.hasNode c.component_id then
        g.setAttr c.component_id (fun a =>
          { a with affected_by_event := true,
                   event_impact_level := some (s.severity.getD ("medium")) })
      else g) g
  else if s.scenario_type == "component_shortage" then
    s.affected_components.foldl (fun g c =>
      if g.hasNode c.component_id then
        g.setAttr c.component_id (fun a =>
          { a with affected_by_shortage := true,
                   shortage_level := some (s.shortage_level.getD ("moderate")) })
      else g) g
  else g

/-- Embeds `ScenarioModeler._get_component_impact_sources`. -/
def get_component_impact_sources (a : NodeAttrs) : List String :=
  (if a.tariff_vulnerable then ["tariff_vulnerable"] else []) ++
  (if a.supply_constrained then ["supply_constrained"] else []) ++
  (if a.affected_by_event then
    ["affected_by_" ++ a.event_impact_level.getD ("medium") ++ "_event"] else []) ++
  (if a.affected_by_shortage then
    ["affected_by_" ++ a.shortage_level.getD ("moderate") ++ "_shortage"] else [])

/-- The affected-component record the collection loop of `combine_scenarios`
builds for one node (when any of the four scenario flags is set). -/
def combine_affected_record (p : String × NodeAttrs) : Option CompRec :=
  if p.2.node_type == "component" &&
     (p.2.tariff_vulnerable || p.2.supply_constrained ||
      p.2.affected_by_event || p.2.affected_by_shortage) then
    some { component_id := p.1, component_name := p.2.name,
           critical := p.2.critical,
           impact_sources := get_component_impact_sources p.2 }
  else none

/-- The affected-component collection loop of `combine_scenarios`: every
component node of the (replayed) working copy carrying any of the four
scenario flags — whether a combined scenario set the flag or it was already
true at ingestion. -/
def combine_collect_affected (g : Graph) : List CompRec :=
  g.nodes.filterMap combine_affected_record

/-- The `priority_map` sort key: high 0, medium 1, low (and a missing
priority) 2, anything else 3. -/
def rec_priority_rank (r : Recommendation) : ℕ :=
  if r.priority == "high" then 0
  else if r.priority == "medium" then 1
  else if r.priority == "low" then 2 else 3

/-- Ascending priority-rank order used by both sorts in
`_generate_compound_recommendations`. -/
def recLE (a b : Recommendation) : Prop :=
  rec_priority_rank a ≤ rec_priority_rank b

instance : DecidableRel recLE :=
  fun a b => inferInstanceAs (Decidable (rec_priority_rank a ≤ rec_priority_rank b))

instance : IsTotal Recommendation recLE :=
  ⟨fun a b => Nat.le_total (rec_priority_rank a) (rec_priority_rank b)⟩

instance : IsTrans Recommendation recLE := ⟨fun _ _ _ h h2 => Nat.le_trans h h2⟩

/-- The concatenation of the recommendation lists of all combined scenarios. -/
def compound_all_recommendations (scenarios : List ScenarioView) : List Recommendation :=
  scenarios.flatMap (fun s => s.recommendations)

/-- Embeds `sorted(action_group, key=priority)[0]`: the stable sort puts the first
highest-priority member of the action group at the head. -/
def pick_for_action (all : List Recommendation) (a : String) : Option Recommendation :=
  (List.insertionSort recLE (all.filter (fun r => r.action == a))).head?

/-- The consolidation loop of `_generate_compound_recommendations`: one
representative per action, actions in first-occurrence order (Python dict
key order). -/
def compound_consolidated (scenarios : List ScenarioView) : List Recommendation :=
  let all := compound_all_recommendations scenarios
  (dedupFirst (all.map (fun r => r.action))).filterMap (pick_for_action all)

/-- The synthetic coordinated-response recommendation prepended when more
than one scenario is combined. -/
def compound_strategy_rec (affected_components : List CompRec) : Recommendation :=
  { action := "compound_strategy",
    description := "Develop a coordinated response strategy for multiple simultaneous disruptions affecting " ++
      toString affected_components.length ++ " components",
    priority := "high",
    estimated_benefit := "Coordinated response to minimize compound impacts",
    implementation_difficulty := "high",
    timeframe := "immediate" }

/-- Embeds `ScenarioModeler._generate_compound_recommendations`. -/
def generate_compound_recommendations (scenarios : List ScenarioView)
    (affected_components : List CompRec) (_affected_products : List AffProd) :
    List Recommendation :=
  let consolidated := List.insertionSort recLE (compound_consolidated scenarios)
  if scenarios.length > 1 then
    compound_strategy_rec affected_components :: consolidated
  else consolidated

/-- Result of `combine_scenarios`. -/
structure CompoundResult where
  scenario_type : String
  scenarios_combined : ℕ
  scenario_types : List String
  affected_components_count : ℕ
  affected_components : List CompRec
  affected_products_count : ℕ
  affected_products : List AffProd
  resilience_impact : RImpact
  severity : String
  recommendations : List Recommendation
  deriving DecidableEq, Repr

/-- Embeds `ScenarioModeler.combine_scenarios`: reset, replay each listed
mutations onto the fresh copy, collect all flagged components, re-score the
combined copy once, and merge the recommendations. -/
def combine_scenarios (st : ModelerState) (scenarios : List ScenarioView) :
    CompoundResult × ModelerState :=
  let st := reset_scenario st
  let graph2 := scenarios.foldl apply_scenario_to_graph st.graph
  let st := { st with graph := graph2 }
  let affected_components := combine_collect_affected st.graph
  let affected_products := find_affected_products st.graph affected_components
  let new_resilience := calculate_resilience_score st.graph none
  let recommendations := generate_compound_recommendations scenarios
    affected_components affected_products
  ({ scenario_type := "compound",
     scenarios_combined := scenarios.length,
     scenario_types := scenarios.map (fun s => s.scenario_type),
     affected_components_count := affected_components.length,
     affected_components := affected_components.take 15,
     affected_products_count := affected_products.length,
     affected_products := affected_products.take 10,
     resilience_impact :=
       { before := st.base_resilience.total_resilience_score,
         after := new_resilience.total_resilience_score,
         change := roundTo 2 (new_resilience.total_resilience_score -
           st.base_resilience.total_resilience_score) },
     severity := if new_resilience.total_resilience_score -
         st.base_resilience.total_resilience_score < -15 then "high" else "medium",
     recommendations := recommendations }, st)

end ScenarioModeler

/-! ## Concrete test graphs -/

/-- The running example graph of the spec: one product `P` containing one
critical, tariff-vulnerable component `C` with a single supplier `S` and a
single origin country `China`. -/
def exampleGraph : Graph :=
  { nodes := [
      ("company_x", { node_type := "company", name := "XCorp" }),
      ("product_p", { node_type := "product", name := "P" }),
      ("component_c", { node_type := "component", name := "C", critical := true,
                        tariff_vulnerable := true, category := "battery" }),
      ("supplier_s", { node_type := "supplier", name := "S" }),
      ("country_china", { node_type := "country", name := "China" })],
    edges := [
      { src := "company_x", dst := "product_p", rel := "MANUFACTURES" },
      { src := "product_p", dst := "component_c", rel := "CONTAINS" },
      { src := "supplier_s", dst := "component_c", rel := "SUPPLIES" },
      { src := "component_c", dst := "country_china", rel := "ORIGINATES_FROM" }] }

/-- A graph with a component but no product node at all. -/
def noProductGraph : Graph :=
  { nodes := [
      ("component_c", { node_type := "component", name := "C", critical := true }),
      ("supplier_s", { node_type := "supplier", name := "S" })],
    edges := [
      { src := "supplier_s", dst := "component_c", rel := "SUPPLIES" }] }

/-- A graph whose single component is used by no product (no `CONTAINS`
in-edge) but originates from Japan. -/
def unusedComponentGraph : Graph :=
  { nodes := [
      ("component_j", { node_type := "component", name := "J", critical := true }),
      ("country_japan", { node_type := "country", name := "Japan" })],
    edges := [
      { src := "component_j", dst := "country_japan", rel := "ORIGINATES_FROM" }] }

/-- Sixteen component nodes, all `tariff_vulnerable` at ingestion, no
products and no scenarios: exercises the 15-entry truncation of
`combine_scenarios`. -/
def sixteenFlaggedGraph : Graph :=
  { nodes := (List.range 16).map (fun i =>
      ("c" ++ toString i,
       { node_type := "component", name := "C" ++ toString i,
         tariff_vulnerable := true })),
    edges := [] }

/-! ## Helper lemmas -/

theorem roundTo_nonneg_le_one {d : ℕ} {x : ℚ} (h0 : 0 ≤ x) (h1 : x ≤ 1) :
    0 ≤ roundTo d x ∧ roundTo d x ≤ 1 := by
  have hp : (0 : ℚ) < (10 : ℚ) ^ d := by positivity
  have habs := abs_sub_round (x * (10 : ℚ) ^ d)
  rw [abs_le] at habs
  obtain ⟨hlo, hhi⟩ := habs
  set r : ℤ := round (x * (10 : ℚ) ^ d) with hr
  have h1q : (-1 : ℚ) < (r : ℚ) := by nlinarith
  have h1z : (-1 : ℤ) < r := by exact_mod_cast h1q
  have hr0 : (0 : ℚ) ≤ (r : ℚ) := by
    exact_mod_cast (by omega : (0 : ℤ) ≤ r)
  have hq : (r : ℚ) < (10 : ℚ) ^ d + 1 := by nlinarith
  have hpow : ((10 ^ d : ℤ) : ℚ) = (10 : ℚ) ^ d := by push_cast; ring
  have h2z : r < 10 ^ d + 1 := by
    have hc : (r : ℚ) < ((10 ^ d + 1 : ℤ) : ℚ) := by
      rw [Int.cast_add, Int.cast_one, hpow]; exact hq
    exact_mod_cast hc
  have hrhi : (r : ℚ) ≤ (10 : ℚ) ^ d := by
    rw [← hpow]; exact_mod_cast (by omega : r ≤ 10 ^ d)
  unfold roundTo
  rw [← hr]
  constructor
  · exact div_nonneg hr0 hp.le
  · rw [div_le_one hp]; exact hrhi

theorem nodup_keys_attr_eq {l : List (String × NodeAttrs)}
    (hn : (l.map Prod.fst).Nodup) {k : String} {x y : NodeAttrs}
    (hx : (k, x) ∈ l) (hy : (k, y) ∈ l) : x = y := by
  induction l with
  | nil => cases hx
  | cons b t ih =>
    rw [List.map_cons, List.nodup_cons] at hn
    rcases List.mem_cons.mp hx with hx1 | hx1 <;>
      rcases List.mem_cons.mp hy with hy1 | hy1
    · rw [← hx1] at hy1
      exact ((Prod.ext_iff.mp hy1).2).symm
    · exfalso; apply hn.1
      rw [← hx1]
      exact List.mem_map.mpr ⟨(k, y), hy1, rfl⟩
    · exfalso; apply hn.1
      rw [← hy1]
      exact List.mem_map.mpr ⟨(k, x), hx1, rfl⟩
    · exact ih hn.2 hx1 hy1

theorem countP_eq_zero_of_keys {l : List (String × NodeAttrs)} {id : String}
    (h : id ∉ l.map Prod.fst) (q : String × NodeAttrs → Bool) :
    l.countP (fun p => p.1 == id && q p) = 0 := by
  rw [List.countP_eq_zero]
  intro p hp
  simp only [Bool.and_eq_true, beq_iff_eq]
  rintro ⟨rfl, -⟩
  exact h (List.mem_map.mpr ⟨p, hp, rfl⟩)

theorem countP_keyed_single {l : List (String × NodeAttrs)}
    (hn : (l.map Prod.fst).Nodup) {id : String} {a : NodeAttrs}
    (hmem : (id, a) ∈ l) (q : String × NodeAttrs → Bool) :
    l.countP (fun p => p.1 == id && q p) = if q (id, a) then 1 else 0 := by
  induction l with
  | nil => cases hmem
  | cons b t ih =>
    rw [List.map_cons, List.nodup_cons] at hn
    rcases List.mem_cons.mp hmem with hb | ht
    · obtain rfl := hb.symm
      have hid : id ∉ t.map Prod.fst := hn.1
      rw [List.countP_cons, countP_eq_zero_of_keys hid q]
      simp
    · have hbid : (b.1 == id) = false := by
        rw [beq_eq_false_iff_ne]
        intro hcon
        exact hn.1 (hcon ▸ List.mem_map.mpr ⟨(id, a), ht, rfl⟩)
      rw [List.countP_cons, ih hn.2 ht, hbid]
      simp

/-! ## C1: supplier-disruption isolation -/

/-- C1.  For every graph `G` and supplier id `s`, after
a complete-level `model_supplier_disruption` call on `ScenarioModeler(G)` the original
graph is unchanged: it is the very same value, so in particular every
`SUPPLIES` edge is still present and no node attribute was added or
modified; mutation happens only on the private working copy. -/
theorem supplier_disruption_preserves_original_graph
    (g : Graph) (supplier_id : String) (duration_months : ℕ) :
    ((ScenarioModeler.model_supplier_disruption (ScenarioModeler.init g)
        supplier_id ("complete") duration_months).2.original_graph = g) ∧
    ((ScenarioModeler.model_supplier_disruption (ScenarioModeler.init g)
        supplier_id ("complete") duration_months).2.original_graph.edges = g.edges) ∧
    ((ScenarioModeler.model_supplier_disruption (ScenarioModeler.init g)
        supplier_id ("complete") duration_months).2.original_graph.nodes = g.nodes) := by
  have h : (ScenarioModeler.model_supplier_disruption (ScenarioModeler.init g)
      supplier_id ("complete") duration_months).2.original_graph = g := by
    simp only [ScenarioModeler.model_supplier_disruption,
      ScenarioModeler.reset_scenario, ScenarioModeler.init]
    split <;> rfl
  exact ⟨h, by rw [h], by rw [h]⟩

/-! ## C2: component criticality formula, range and example -/

/-- C2.  Component criticality equals the rounded weighted sum
`round(f1*0.40 + f2*0.25 + f3*0.20 + f4*0.15, 2)` with factor 1 from the
`critical` flag, factor 2 from `tariff_vulnerable`, factor 3 banded on the
`SUPPLIES` in-edge count (0 → 1.0, 1 → 0.9, 2–3 → 0.6, ≥ 4 → 0.2) and
factor 4 banded on the origin-country count (1 → 0.8, 2 → 0.5, else 0.2);
the result always lies in `[0, 1]`, and on the one-product example graph it
is exactly `0.90`. -/
theorem component_criticality_formula_range_example
    (g : Graph) (component_id : String) (product_id : Option String) :
    (calculate_component_criticality g component_id product_id =
      roundTo 2 ((if (g.attrsOf component_id).critical then (1.0 : ℚ) else 0.3) * 0.4 +
        (if (g.attrsOf component_id).tariff_vulnerable then (0.8 : ℚ) else 0.4) * 0.25 +
        (if (suppliers_of g component_id).length = 0 then (1.0 : ℚ)
         else if (suppliers_of g component_id).length = 1 then 0.9
         else if (suppliers_of g component_id).length ≤ 3 then 0.6 else 0.2) * 0.2 +
        (if (get_component_countries g component_id).length = 1 then (0.8 : ℚ)
         else if (get_component_countries g component_id).length = 2 then 0.5
         else 0.2) * 0.15)) ∧
    (0 ≤ calculate_component_criticality g component_id product_id ∧
      calculate_component_criticality g component_id product_id ≤ 1) ∧
    calculate_component_criticality exampleGraph ("component_c") (some ("product_p")) = 0.90 := by
  refine ⟨rfl, ?_, by decide⟩
  unfold calculate_component_criticality
  apply roundTo_nonneg_le_one <;> split_ifs <;> norm_num

/-! ## C3: reset discipline and baselines of the scenario methods -/

/-- C3 counterexample.  On a fresh modeler over the example graph the
construction-time baseline is `24.5`; after an intervening
complete-level `model_supplier_disruption` call, `model_geopolitical_event`
reports a baseline (`resilience_impact.before`) of `12`, not the
construction-time `24.5` that the same call reports on a fresh modeler — so
the result of a scenario call does depend on mutations made by an earlier call,
and its reported baseline is not the one captured at construction. -/
theorem geopolitical_baseline_counterexample :
    ((ScenarioModeler.model_geopolitical_event
        (ScenarioModeler.model_supplier_disruption (ScenarioModeler.init exampleGraph)
          ("supplier_s") ("complete") 6).2
        ("China") ("conflict") ("high") 6).1.resilience_impact.before = 12) ∧
    ((ScenarioModeler.init exampleGraph).base_resilience.total_resilience_score = 49/2) ∧
    ((ScenarioModeler.model_geopolitical_event (ScenarioModeler.init exampleGraph)
        ("China") ("conflict") ("high") 6).1.resilience_impact.before = 49/2) ∧
    (12 : ℚ) ≠ 49/2 := by
  refine ⟨by decide, by decide, by decide, by norm_num⟩

/-- C3 amended.  `model_tariff_change`, `model_supplier_disruption` and
`combine_scenarios` reset to a fresh copy of the original graph first — their
output is a function of the original graph and the stored baseline alone, so
it cannot depend on earlier mutations — and each reports the
construction-time baseline as `resilience_impact.before`.
`model_geopolitical_event`, by contrast, performs no reset: it leaves the
modeler state untouched, reads the *current* working copy, and recomputes the
baseline it reports from that working copy. -/
theorem scenario_reset_and_baseline_discipline :
    (∀ (st st2 : ModelerState) (country : String) (t : ℚ) (types : Option (List String)),
        st.original_graph = st2.original_graph →
        st.base_resilience = st2.base_resilience →
        ScenarioModeler.model_tariff_change st country t types =
          ScenarioModeler.model_tariff_change st2 country t types) ∧
    (∀ (st st2 : ModelerState) (supplier_id lvl : String) (d : ℕ),
        st.original_graph = st2.original_graph →
        st.base_resilience = st2.base_resilience →
        ScenarioModeler.model_supplier_disruption st supplier_id lvl d =
          ScenarioModeler.model_supplier_disruption st2 supplier_id lvl d) ∧
    (∀ (st st2 : ModelerState) (scens : List ScenarioView),
        st.original_graph = st2.original_graph →
        st.base_resilience = st2.base_resilience →
        ScenarioModeler.combine_scenarios st scens =
          ScenarioModeler.combine_scenarios st2 scens) ∧
    (∀ (st : ModelerState) (country : String) (t : ℚ) (types : Option (List String)),
        (ScenarioModeler.model_tariff_change st country t types).1.resilience_impact.before =
          st.base_resilience.total_resilience_score) ∧
    (∀ (st : ModelerState) (supplier_id lvl : String) (d : ℕ),
        (((ScenarioModeler.model_supplier_disruption st supplier_id lvl d).1.resilience_impact).map
            RImpact.before).getD st.base_resilience.total_resilience_score =
          st.base_resilience.total_resilience_score) ∧
    (∀ (st : ModelerState) (scens : List ScenarioView),
        (ScenarioModeler.combine_scenarios st scens).1.resilience_impact.before =
          st.base_resilience.total_resilience_score) ∧
    (∀ (st : ModelerState) (country event_type severity : String) (d : ℕ),
        ((ScenarioModeler.model_geopolitical_event st country event_type severity d).1.resilience_impact.before =
          (calculate_resilience_score st.graph none).total_resilience_score) ∧
        (ScenarioModeler.model_geopolitical_event st country event_type severity d).2 = st) := by
  refine ⟨?_, ?_, ?_, ?_, ?_, ?_, ?_⟩
  · rintro ⟨o, g, b⟩ ⟨o2, g2, b2⟩ country t types h1 h2
    dsimp at h1 h2
    subst h1; subst h2; rfl
  · rintro ⟨o, g, b⟩ ⟨o2, g2, b2⟩ s lvl d h1 h2
    dsimp at h1 h2
    subst h1; subst h2; rfl
  · rintro ⟨o, g, b⟩ ⟨o2, g2, b2⟩ scens h1 h2
    dsimp at h1 h2
    subst h1; subst h2; rfl
  · intro st country t types
    simp only [ScenarioModeler.model_tariff_change]
    split <;> rfl
  · intro st s lvl d
    simp only [ScenarioModeler.model_supplier_disruption]
    split <;> rfl
  · intro st scens
    rfl
  · intro st c e sv d
    exact ⟨rfl, rfl⟩

/-- C3 witness: the theorem applied at concrete states — two modeler states
sharing the original graph and baseline but with different working copies
yield identical tariff results, and the concrete geopolitical call on the
example modeler reports the recomputed baseline of the working copy. -/
theorem scenario_reset_witness :
    (ScenarioModeler.model_tariff_change (ScenarioModeler.init exampleGraph) ("China") 25 none =
      ScenarioModeler.model_tariff_change
        { original_graph := exampleGraph, graph := noProductGraph,
          base_resilience := calculate_resilience_score exampleGraph none }
        ("China") 25 none) ∧
    ((ScenarioModeler.model_geopolitical_event (ScenarioModeler.init exampleGraph)
        ("China") ("conflict") ("high") 6).1.resilience_impact.before =
      (calculate_resilience_score (ScenarioModeler.init exampleGraph).graph none).total_resilience_score) :=
  ⟨scenario_reset_and_baseline_discipline.1 (ScenarioModeler.init exampleGraph)
      { original_graph := exampleGraph, graph := noProductGraph,
        base_resilience := calculate_resilience_score exampleGraph none }
      ("China") 25 none rfl rfl,
   (scenario_reset_and_baseline_discipline.2.2.2.2.2.2
      (ScenarioModeler.init exampleGraph) ("China") ("conflict") ("high") 6).1⟩

/-! ## C4: resilience score with no qualifying products -/

/-- C4 counterexample.  On a graph with no product nodes,
`calculate_resilience_score` does return score `0` without raising, but its
early return carries *neither* a `risk_level` key *nor* a `metrics` key —
contradicting the claim that `risk_level` is still present (and that empty
metrics are returned). -/
theorem resilience_no_products_counterexample :
    ((calculate_resilience_score noProductGraph none).total_resilience_score = 0) ∧
    ((calculate_resilience_score noProductGraph none).risk_level = none) ∧
    ((calculate_resilience_score noProductGraph none).metrics = none) := by
  refine ⟨by decide, by decide, by decide⟩

/-- C4 amended.  Whenever no products qualify (no `MANUFACTURES` out-edges
for the given company, or no product nodes at all), the function returns —
without raising — a result whose score is `0` and whose factors are all
zeroed, but which contains no `metrics` and no `risk_level` key at all. -/
theorem resilience_no_products_amended (g : Graph) (company_id : Option String)
    (h : products_to_analyze g company_id = []) :
    calculate_resilience_score g company_id =
      { total_resilience_score := 0, risk_level := none,
        factors := ⟨0, 0, 0, 0, 0⟩, metrics := none } := by
  unfold calculate_resilience_score
  rw [h]
  rfl

/-- C4 witness: the amended theorem applied to the concrete no-product
graph. -/
theorem resilience_no_products_witness :
    products_to_analyze noProductGraph none = [] ∧
    calculate_resilience_score noProductGraph none =
      { total_resilience_score := 0, risk_level := none,
        factors := ⟨0, 0, 0, 0, 0⟩, metrics := none } :=
  ⟨by decide, resilience_no_products_amended noProductGraph none (by decide)⟩

/-! ## C5: single points of failure -/

theorem mem_single_supplier_pass_elim {g : Graph} {r : SpofRecord}
    (h : r ∈ single_supplier_pass g) :
    ∃ p, p ∈ g.nodes ∧ r.component_id = p.1 ∧ r.spof_type = "single_supplier" ∧
      r.risk_level = (if p.2.critical then "high" else "medium") := by
  simp only [single_supplier_pass, List.mem_filterMap] at h
  obtain ⟨p, hp, hf⟩ := h
  refine ⟨p, hp, ?_⟩
  simp only [single_supplier_record] at hf
  split_ifs at hf <;> simp only [Option.some.injEq] at hf <;> subst hf <;>
    refine ⟨rfl, rfl, ?_⟩ <;> simp [*]

theorem mem_single_country_pass_elim {g : Graph} {r : SpofRecord}
    (h : r ∈ single_country_pass g) :
    ∃ p, p ∈ g.nodes ∧ r.component_id = p.1 ∧ r.spof_type = "single_country" ∧
      r.risk_level = (if p.2.critical then "high" else "medium") := by
  simp only [single_country_pass, List.mem_filterMap] at h
  obtain ⟨p, hp, hf⟩ := h
  refine ⟨p, hp, ?_⟩
  simp only [single_country_record] at hf
  split_ifs at hf <;> simp only [Option.some.injEq] at hf <;> subst hf <;>
    refine ⟨rfl, rfl, ?_⟩ <;> simp [*]

theorem single_supplier_record_point (g : Graph) (id : String)
    (p : String × NodeAttrs) :
    (((single_supplier_record g p).map
        (fun r => r.spof_type == "single_supplier" && r.component_id == id)).getD false) =
      (p.1 == id && (p.2.node_type == "component" &&
        (decide ((suppliers_of g p.1).length = 1) &&
          decide (spof_products_using g p.1 ≠ [])))) := by
  unfold single_supplier_record
  by_cases h1 : (p.2.node_type == "component") = true
  · by_cases h2 : ((suppliers_of g p.1).map Edge.src).length = 1
    · by_cases h3 : spof_products_using g p.1 ≠ []
      · simp only [List.length_map] at h2
        simp [h1, h2, h3, List.length_map, Bool.and_comm]
      · simp only [List.length_map] at h2
        simp [h1, h2, h3, List.length_map]
    · simp only [List.length_map] at h2
      simp [h1, h2, List.length_map]
  · simp [h1]

theorem single_country_record_point (g : Graph) (id : String)
    (p : String × NodeAttrs) :
    (((single_country_record g p).map
        (fun r => r.spof_type == "single_country" && r.component_id == id)).getD false) =
      (p.1 == id && (p.2.node_type == "component" &&
        (decide ((get_component_countries g p.1).length = 1) &&
          decide (spof_products_using g p.1 ≠ [])))) := by
  unfold single_country_record
  by_cases h1 : (p.2.node_type == "component") = true
  · by_cases h2 : (get_component_countries g p.1).length = 1
    · by_cases h3 : spof_products_using g p.1 ≠ []
      · simp [h1, h2, h3, Bool.and_comm]
      · simp [h1, h2, h3]
    · simp [h1, h2]
  · simp [h1]

/-- C5.  `detect_single_points_of_failure` makes two independent passes over
the component nodes: on a graph with unique node ids, a component in use
(nonempty product list) with exactly one `SUPPLIES` in-edge yields exactly
one `single_supplier` record, a component in use with exactly one origin
country yields exactly one `single_country` record (so a component matching
both appears twice), the `risk_level` of each record is `high` iff the
`critical` flag of the component is set (else `medium`); on the one-product
example graph the result is exactly the two records for `C`, both `high`. -/
theorem detect_spof_characterization (g : Graph)
    (hg : (g.nodes.map Prod.fst).Nodup) (id : String) (a : NodeAttrs)
    (hmem : (id, a) ∈ g.nodes) (ha : a.node_type = "component") :
    ((detect_single_points_of_failure g).countP
        (fun r => r.spof_type == "single_supplier" && r.component_id == id) =
      if (suppliers_of g id).length = 1 ∧ spof_products_using g id ≠ [] then 1 else 0) ∧
    ((detect_single_points_of_failure g).countP
        (fun r => r.spof_type == "single_country" && r.component_id == id) =
      if (get_component_countries g id).length = 1 ∧ spof_products_using g id ≠ [] then 1 else 0) ∧
    (∀ r ∈ detect_single_points_of_failure g, r.component_id = id →
      r.risk_level = (if a.critical then "high" else "medium")) ∧
    ((detect_single_points_of_failure exampleGraph).map
        (fun r => (r.spof_type, r.component_id, r.risk_level)) =
      [(("single_supplier"), ("component_c"), ("high")),
       (("single_country"), ("component_c"), ("high"))]) := by
  refine ⟨?_, ?_, ?_, by decide⟩
  · unfold detect_single_points_of_failure
    rw [List.countP_append]
    have hzero : (single_country_pass g).countP
        (fun r => r.spof_type == "single_supplier" && r.component_id == id) = 0 := by
      rw [List.countP_eq_zero]
      intro r hr
      obtain ⟨p, -, -, hty, -⟩ := mem_single_country_pass_elim hr
      simp [hty]
    rw [hzero, Nat.add_zero]
    unfold single_supplier_pass
    rw [List.countP_filterMap]
    simp only [single_supplier_record_point g id]
    rw [countP_keyed_single hg hmem]
    simp only [ha]
    by_cases h2 : (suppliers_of g id).length = 1 <;>
      by_cases h3 : spof_products_using g id ≠ [] <;>
      simp [h2, h3]
  · unfold detect_single_points_of_failure
    rw [List.countP_append]
    have hzero : (single_supplier_pass g).countP
        (fun r => r.spof_type == "single_country" && r.component_id == id) = 0 := by
      rw [List.countP_eq_zero]
      intro r hr
      obtain ⟨p, -, -, hty, -⟩ := mem_single_supplier_pass_elim hr
      simp [hty]
    rw [hzero, Nat.zero_add]
    unfold single_country_pass
    rw [List.countP_filterMap]
    simp only [single_country_record_point g id]
    rw [countP_keyed_single hg hmem]
    simp only [ha]
    by_cases h2 : (get_component_countries g id).length = 1 <;>
      by_cases h3 : spof_products_using g id ≠ [] <;>
      simp [h2, h3]
  · intro r hr hrid
    rcases List.mem_append.mp hr with h1 | h1
    · obtain ⟨p, hp, hid, -, hrisk⟩ := mem_single_supplier_pass_elim h1
      have hp1 : p.1 = id := hid.symm.trans hrid
      have hmem2 : (id, p.2) ∈ g.nodes := by rw [← hp1]; simpa using hp
      have hpa : p.2 = a := nodup_keys_attr_eq hg hmem2 hmem
      rw [hrisk, hpa]
    · obtain ⟨p, hp, hid, -, hrisk⟩ := mem_single_country_pass_elim h1
      have hp1 : p.1 = id := hid.symm.trans hrid
      have hmem2 : (id, p.2) ∈ g.nodes := by rw [← hp1]; simpa using hp
      have hpa : p.2 = a := nodup_keys_attr_eq hg hmem2 hmem
      rw [hrisk, hpa]

/-- C5 witness: the characterization applied to component `C` of the example
graph. -/
theorem detect_spof_witness :
    (detect_single_points_of_failure exampleGraph).countP
        (fun r => r.spof_type == "single_supplier" && r.component_id == "component_c") =
      if (suppliers_of exampleGraph ("component_c")).length = 1 ∧
          spof_products_using exampleGraph ("component_c") ≠ [] then 1 else 0 :=
  (detect_spof_characterization exampleGraph (by decide) ("component_c")
    { node_type := "component", name := "C", critical := true,
      tariff_vulnerable := true, category := "battery" }
    (by decide) (by decide)).1

/-! ## C6: price impacts -/

theorem roundTo_zero (d : ℕ) : roundTo d 0 = 0 := by
  unfold roundTo
  rw [zero_mul, round_zero]
  simp

/-- C6.  `calculate_price_impacts` sets, for every affected component, the estimated
price increase to `round(t*0.4, 2)`; sets the increase of every product to the
sum, over its affected components, of the matching component increase
times `0.5` (critical) or `0.2` (non-critical), capped at `t` (and rounded
to 2 decimals); returns the average of the product increases (`0` over the
guard denominator when empty), with maximum and minimum likewise `0` for an
empty product list; and on the one-product example graph
a China 25-percent `model_tariff_change` yields exactly one affected component and
an `average_product_price_increase` of `5.0`. -/
theorem price_impacts_characterization (affected_components : List CompRec)
    (affected_products : List AffProd) (tariff_increase : ℚ) :
    (∀ c ∈ (calculate_price_impacts affected_components affected_products tariff_increase).1,
      c.estimated_price_increase = some (roundTo 2 (tariff_increase * 0.4))) ∧
    (∀ p ∈ (calculate_price_impacts affected_components affected_products tariff_increase).2.1,
      p.estimated_price_increase_percentage = some (roundTo 2 (min
        ((p.affected_components.map (fun pc =>
          ((((calculate_price_impacts affected_components affected_products
                tariff_increase).1.find?
              (fun ac => ac.component_id == pc.component_id)).map
            (fun ac => ac.estimated_price_increase.getD 0 *
              (if pc.critical then (0.5 : ℚ) else 0.2))).getD 0))).sum)
        tariff_increase))) ∧
    ((calculate_price_impacts affected_components affected_products
        tariff_increase).2.2.average_product_price_increase =
      roundTo 2
        ((((calculate_price_impacts affected_components affected_products
            tariff_increase).2.1.map
          (fun p => p.estimated_price_increase_percentage.getD 0)).sum) /
          max 1 (affected_products.length : ℚ))) ∧
    (affected_products = [] →
      ((calculate_price_impacts affected_components affected_products
          tariff_increase).2.2.average_product_price_increase = 0 ∧
       (calculate_price_impacts affected_components affected_products
          tariff_increase).2.2.max_product_price_increase = 0 ∧
       (calculate_price_impacts affected_components affected_products
          tariff_increase).2.2.min_product_price_increase = 0)) ∧
    ((ScenarioModeler.model_tariff_change (ScenarioModeler.init exampleGraph)
        ("China") 25 none).1.affected_components.length = 1 ∧
     (ScenarioModeler.model_tariff_change (ScenarioModeler.init exampleGraph)
        ("China") 25 none).1.price_impacts.average_product_price_increase = 5.0) := by
  refine ⟨?_, ?_, ?_, ?_, by decide, by decide⟩
  · intro c hc
    simp only [calculate_price_impacts, List.mem_map] at hc
    obtain ⟨c0, -, rfl⟩ := hc
    rfl
  · intro p hp
    simp only [calculate_price_impacts, List.mem_map] at hp
    obtain ⟨p0, -, rfl⟩ := hp
    rfl
  · simp only [calculate_price_impacts, List.length_map]
  · intro h
    subst h
    refine ⟨?_, rfl, rfl⟩
    simp only [calculate_price_impacts, List.map_nil, List.sum_nil,
      List.length_nil, Nat.cast_zero, zero_div]
    exact roundTo_zero 2

/-- C6 witness: the empty-product case and the component-annotation case of
the characterization at concrete inputs. -/
theorem price_impacts_witness :
    ((calculate_price_impacts [] [] 25).2.2.average_product_price_increase = 0 ∧
     (calculate_price_impacts [] [] 25).2.2.max_product_price_increase = 0 ∧
     (calculate_price_impacts [] [] 25).2.2.min_product_price_increase = 0) ∧
    ({ component_id := "component_c",
       estimated_price_increase := some (10 : ℚ) } : CompRec).estimated_price_increase =
      some (roundTo 2 (25 * 0.4)) :=
  ⟨(price_impacts_characterization [] [] 25).2.2.2.1 rfl,
   (price_impacts_characterization [{ component_id := "component_c" }] [] 25).1
     { component_id := "component_c", estimated_price_increase := some (10 : ℚ) }
     (by decide)⟩

/-! ## C7: compound scenarios -/

/-- The tariff scenario result on the example graph, as `combine_scenarios`
reads it. -/
def exampleTariffView : ScenarioView :=
  ScenarioModeler.TariffResult.toView
    (ScenarioModeler.model_tariff_change (ScenarioModeler.init exampleGraph)
      ("China") 25 none).1

/-- The complete-level supplier-disruption result on the example graph. -/
def exampleDisruptionCompleteView : ScenarioView :=
  ScenarioModeler.DisruptionResult.toView
    (ScenarioModeler.model_supplier_disruption (ScenarioModeler.init exampleGraph)
      ("supplier_s") ("complete") 6).1

/-- The partial-level supplier-disruption result on the example graph. -/
def exampleDisruptionPartialView : ScenarioView :=
  ScenarioModeler.DisruptionResult.toView
    (ScenarioModeler.model_supplier_disruption (ScenarioModeler.init exampleGraph)
      ("supplier_s") ("partial") 6).1

/-- C7 counterexample.  Combining the tariff scenario with a *complete*
supplier disruption (both affecting component `C`) yields exactly one entry
for `C`, but its `impact_sources` is the singleton `tariff_vulnerable`: the
complete disruption is replayed as an edge removal, which leaves no
`supply_constrained` flag and no other marker in `impact_sources` — so the
claimed second impact source does not appear. -/
theorem compound_impact_sources_counterexample :
    ((ScenarioModeler.combine_scenarios (ScenarioModeler.init exampleGraph)
        [exampleTariffView, exampleDisruptionCompleteView]).1.affected_components.map
      (fun c => (c.component_id, c.impact_sources)) =
      [(("component_c"), ["tariff_vulnerable"])]) ∧
    ((ScenarioModeler.combine_scenarios (ScenarioModeler.init exampleGraph)
        [exampleTariffView, exampleDisruptionCompleteView]).1.affected_components.all
      (fun c => c.impact_sources.all (fun s => s == "tariff_vulnerable")) = true) := by
  refine ⟨by decide, by decide⟩

theorem combine_affected_record_id {p : String × NodeAttrs} {r : CompRec}
    (h : ScenarioModeler.combine_affected_record p = some r) :
    r.component_id = p.1 := by
  unfold ScenarioModeler.combine_affected_record at h
  split_ifs at h
  simp only [Option.some.injEq] at h
  subst h
  rfl

theorem collect_affected_ids_sublist (l : List (String × NodeAttrs)) :
    ((l.filterMap ScenarioModeler.combine_affected_record).map
      (fun c => c.component_id)).Sublist (l.map Prod.fst) := by
  induction l with
  | nil => simp
  | cons p t ih =>
    rw [List.filterMap_cons]
    cases hf : ScenarioModeler.combine_affected_record p with
    | none => exact (List.map_cons _ _ _ ▸ ih.cons p.1)
    | some r =>
      rw [List.map_cons, List.map_cons, combine_affected_record_id hf]
      exact ih.cons₂ p.1

theorem setAttr_keys (g : Graph) (id : String) (f : NodeAttrs → NodeAttrs) :
    (g.setAttr id f).nodes.map Prod.fst = g.nodes.map Prod.fst := by
  unfold Graph.setAttr
  rw [List.map_map]
  apply List.map_congr_left
  intro p hp
  by_cases h : p.1 = id <;> simp [h]

theorem foldl_update_keys (step : Graph → CompRec → Graph)
    (hstep : ∀ (g : Graph) (c : CompRec),
      (step g c).nodes.map Prod.fst = g.nodes.map Prod.fst) :
    ∀ (l : List CompRec) (g : Graph),
      (l.foldl step g).nodes.map Prod.fst = g.nodes.map Prod.fst := by
  intro l
  induction l with
  | nil => intro g; rfl
  | cons c t ih => intro g; rw [List.foldl_cons, ih, hstep]

theorem apply_scenario_keys (s : ScenarioView) (g : Graph) :
    (ScenarioModeler.apply_scenario_to_graph g s).nodes.map Prod.fst =
      g.nodes.map Prod.fst := by
  unfold ScenarioModeler.apply_scenario_to_graph
  split_ifs <;>
    first
    | rfl
    | exact foldl_update_keys _
        (fun g c => by split_ifs <;> first | apply setAttr_keys | rfl)
        s.affected_components g

theorem replay_all_keys (scens : List ScenarioView) (g : Graph) :
    (scens.foldl ScenarioModeler.apply_scenario_to_graph g).nodes.map Prod.fst =
      g.nodes.map Prod.fst := by
  induction scens generalizing g with
  | nil => rfl
  | cons s t ih => rw [List.foldl_cons, ih, apply_scenario_keys]

theorem pick_for_action_spec {all : List Recommendation} {a : String}
    {r : Recommendation}
    (h : ScenarioModeler.pick_for_action all a = some r) :
    r.action = a ∧ r ∈ all ∧
      ∀ r2 ∈ all, r2.action = a →
        ScenarioModeler.rec_priority_rank r ≤ ScenarioModeler.rec_priority_rank r2 := by
  unfold ScenarioModeler.pick_for_action at h
  set group := all.filter (fun x => x.action == a) with hgroup
  cases hs : List.insertionSort ScenarioModeler.recLE group with
  | nil => rw [hs] at h; cases h
  | cons r0 tl =>
    rw [hs] at h
    simp only [List.head?_cons, Option.some.injEq] at h
    subst h
    have hr0 : r0 ∈ group := by
      rw [← List.mem_insertionSort (r := ScenarioModeler.recLE), hs]
      exact List.mem_cons_self _ _
    have hract : r0.action = a := by
      have := (List.mem_filter.mp (hgroup ▸ hr0)).2
      simpa using this
    have hrall : r0 ∈ all := (List.mem_filter.mp (hgroup ▸ hr0)).1
    refine ⟨hract, hrall, ?_⟩
    intro r2 h2 h2a
    have h2g : r2 ∈ group := by
      rw [hgroup]
      exact List.mem_filter.mpr ⟨h2, by simp [h2a]⟩
    have h2s : r2 ∈ List.insertionSort ScenarioModeler.recLE group :=
      (List.mem_insertionSort (r := ScenarioModeler.recLE)).mpr h2g
    rw [hs] at h2s
    rcases List.mem_cons.mp h2s with h2s | h2s
    · subst h2s; exact Nat.le_refl _
    · have hsorted := List.sorted_insertionSort ScenarioModeler.recLE group
      rw [hs] at hsorted
      exact List.rel_of_sorted_cons hsorted r2 h2s

theorem pick_for_action_isSome {all : List Recommendation} {a : String}
    (h : a ∈ all.map (fun r => r.action)) :
    ∃ r, ScenarioModeler.pick_for_action all a = some r := by
  obtain ⟨r0, hr0, hact⟩ := List.mem_map.mp h
  have hg : r0 ∈ all.filter (fun x => x.action == a) :=
    List.mem_filter.mpr ⟨hr0, by simp [hact]⟩
  unfold ScenarioModeler.pick_for_action
  cases hs : List.insertionSort ScenarioModeler.recLE
      (all.filter (fun x => x.action == a)) with
  | nil =>
    exfalso
    have := (List.mem_insertionSort (r := ScenarioModeler.recLE)).mpr hg
    rw [hs] at this
    cases this
  | cons r1 tl => exact ⟨r1, rfl⟩

theorem filterMap_pick_map_action (all : List Recommendation) :
    ∀ ks : List String, (∀ a ∈ ks, a ∈ all.map (fun r => r.action)) →
      (ks.filterMap (ScenarioModeler.pick_for_action all)).map (fun r => r.action) = ks := by
  intro ks
  induction ks with
  | nil => intro _; rfl
  | cons a t ih =>
    intro hsub
    obtain ⟨r, hr⟩ := pick_for_action_isSome (hsub a (List.mem_cons_self _ _))
    rw [List.filterMap_cons, hr, List.map_cons,
      (pick_for_action_spec hr).1,
      ih (fun b hb => hsub b (List.mem_cons_of_mem _ hb))]

theorem consolidated_map_action (scens : List ScenarioView) :
    (ScenarioModeler.compound_consolidated scens).map (fun r => r.action) =
      dedupFirst ((ScenarioModeler.compound_all_recommendations scens).map
        (fun r => r.action)) := by
  simp only [ScenarioModeler.compound_consolidated]
  exact filterMap_pick_map_action _ _ (fun a ha => mem_dedupFirst.mp ha)

/-- C7 amended.  `combine_scenarios` produces at most one affected-component
entry per node id (its id list is duplicate-free whenever the graph node
ids are); the merged recommendation list carries exactly the distinct
actions of the recommendations of the combined scenarios (in particular one entry
per action), each merged entry having priority rank no worse than every
same-action recommendation of the inputs; with more than one scenario a
synthetic `compound_strategy` recommendation is prepended.  Combining the
tariff scenario with a *partial* supplier disruption yields exactly one
entry for `C` whose `impact_sources` contains both `tariff_vulnerable` and
`supply_constrained`; a complete-level disruption instead contributes no
impact source (its effect is the edge removal on the working copy). -/
theorem combine_scenarios_characterization :
    (∀ (st : ModelerState) (scens : List ScenarioView),
      (st.original_graph.nodes.map Prod.fst).Nodup →
      (((ScenarioModeler.combine_scenarios st scens).1.affected_components).map
        (fun c => c.component_id)).Nodup) ∧
    (∀ scens : List ScenarioView,
      ((List.insertionSort ScenarioModeler.recLE
          (ScenarioModeler.compound_consolidated scens)).map (fun r => r.action)).Perm
        (dedupFirst ((ScenarioModeler.compound_all_recommendations scens).map
          (fun r => r.action)))) ∧
    (∀ scens : List ScenarioView, ∀ r ∈ ScenarioModeler.compound_consolidated scens,
      ∀ r2 ∈ ScenarioModeler.compound_all_recommendations scens, r2.action = r.action →
        ScenarioModeler.rec_priority_rank r ≤ ScenarioModeler.rec_priority_rank r2) ∧
    (∀ (scens : List ScenarioView) (aff : List CompRec) (prods : List AffProd),
      scens.length > 1 →
      (ScenarioModeler.generate_compound_recommendations scens aff prods).head? =
        some (ScenarioModeler.compound_strategy_rec aff)) ∧
    ((ScenarioModeler.combine_scenarios (ScenarioModeler.init exampleGraph)
        [exampleTariffView, exampleDisruptionPartialView]).1.affected_components.map
      (fun c => (c.component_id, c.impact_sources)) =
      [(("component_c"), ["tariff_vulnerable", "supply_constrained"])]) := by
  refine ⟨?_, ?_, ?_, ?_, by decide⟩
  · intro st scens h
    show ((((ScenarioModeler.combine_collect_affected
        (scens.foldl ScenarioModeler.apply_scenario_to_graph st.original_graph)).take 15)).map
          (fun c => c.component_id)).Nodup
    have hkeys : ((scens.foldl ScenarioModeler.apply_scenario_to_graph
        st.original_graph).nodes.map Prod.fst).Nodup := by
      rw [replay_all_keys]; exact h
    have hsub := collect_affected_ids_sublist
      (scens.foldl ScenarioModeler.apply_scenario_to_graph st.original_graph).nodes
    have hnodup : ((ScenarioModeler.combine_collect_affected
        (scens.foldl ScenarioModeler.apply_scenario_to_graph st.original_graph)).map
          (fun c => c.component_id)).Nodup := hkeys.sublist hsub
    rw [List.map_take]
    exact hnodup.sublist (List.take_sublist _ _)
  · intro scens
    rw [← consolidated_map_action scens]
    exact (List.perm_insertionSort ScenarioModeler.recLE _).map _
  · intro scens r hr r2 h2 h2a
    unfold ScenarioModeler.compound_consolidated at hr
    obtain ⟨a, -, hpick⟩ := List.mem_filterMap.mp hr
    obtain ⟨hact, -, hmin⟩ := pick_for_action_spec hpick
    exact hmin r2 h2 (hact ▸ h2a)
  · intro scens aff prods hlen
    unfold ScenarioModeler.generate_compound_recommendations
    rw [if_pos hlen]
    rfl

/-- C7 witness: the characterization applied at the example compound
scenario (tariff + partial disruption on the example graph). -/
theorem combine_scenarios_witness :
    (((ScenarioModeler.combine_scenarios (ScenarioModeler.init exampleGraph)
        [exampleTariffView, exampleDisruptionPartialView]).1.affected_components).map
      (fun c => c.component_id)).Nodup ∧
    (ScenarioModeler.generate_compound_recommendations
        [exampleTariffView, exampleDisruptionPartialView] [] []).head? =
      some (ScenarioModeler.compound_strategy_rec []) :=
  ⟨combine_scenarios_characterization.1 (ScenarioModeler.init exampleGraph)
      [exampleTariffView, exampleDisruptionPartialView] (by decide),
   combine_scenarios_characterization.2.2.2.1
      [exampleTariffView, exampleDisruptionPartialView] [] [] (by decide)⟩

/-! ## C8: geographical concentration -/

/-- C8 counterexample.  The single component of `unusedComponentGraph` has
no incoming `CONTAINS` edge (it is not "in use"), yet
`identify_geographical_concentration` buckets it under Japan — the loop has
no in-use filter, so the claim that only in-use components are bucketed is
false. -/
theorem geo_concentration_counterexample :
    ((spof_products_using unusedComponentGraph ("component_j")) = []) ∧
    ((identify_geographical_concentration unusedComponentGraph).country_concentration =
      [{ country := "Japan", total_components := 1, critical_components := 1,
         tariff_vulnerable_components := 0, concentration_score := 1/2,
         risk_level := "low" }]) := by
  refine ⟨by decide, by decide⟩

/-- C8 amended.  `identify_geographical_concentration` buckets *every*
component node by origin country — with no in-use filter, and counting a
component once per country it originates from; per country entry the
`concentration_score` is `round((count*0.4 + critical*0.6) / max(1, total
graph node count), 3)`, its `risk_level` is `high` for more than 5 critical
components, `medium` for more than 2, else `low`; and the per-country list
is sorted descending by concentration score. -/
theorem geo_concentration_characterization :
    (∀ (g : Graph), ∀ e ∈ (identify_geographical_concentration g).country_concentration,
      e.concentration_score = roundTo 3 (((e.total_components : ℚ) * 0.4 +
        (e.critical_components : ℚ) * 0.6) / max 1 (g.nodes.length : ℚ)) ∧
      e.risk_level = (if e.critical_components > 5 then "high"
        else if e.critical_components > 2 then "medium" else "low")) ∧
    (∀ g : Graph,
      List.Sorted geoGE (identify_geographical_concentration g).country_concentration) ∧
    (∀ (g : Graph) (id : String) (a : NodeAttrs) (c : String),
      (id, a) ∈ g.nodes → a.node_type = "component" →
      c ∈ get_component_countries g id →
      ∃ e ∈ (identify_geographical_concentration g).country_concentration,
        e.country = c) := by
  refine ⟨?_, ?_, ?_⟩
  · intro g e he
    simp only [identify_geographical_concentration, List.mem_insertionSort] at he
    obtain ⟨ck, -, rfl⟩ := List.mem_map.mp he
    exact ⟨rfl, rfl⟩
  · intro g
    simp only [identify_geographical_concentration]
    exact List.sorted_insertionSort geoGE _
  · intro g id a c hmem ha hc
    have hpair : (c, (⟨id, a.name, a.critical, a.tariff_vulnerable⟩ :
        CountryBucketEntry)) ∈ geo_pairs g := by
      unfold geo_pairs
      apply List.mem_flatMap.mpr
      refine ⟨(id, a), hmem, ?_⟩
      rw [if_pos (by simp [ha])]
      exact List.mem_map.mpr ⟨c, hc, rfl⟩
    have hkey : c ∈ dedupFirst ((geo_pairs g).map Prod.fst) :=
      mem_dedupFirst.mpr (List.mem_map.mpr ⟨_, hpair, rfl⟩)
    refine ⟨mk_country_analysis g (geo_pairs g) c, ?_, rfl⟩
    simp only [identify_geographical_concentration, List.mem_insertionSort]
    exact List.mem_map.mpr ⟨c, hkey, rfl⟩

/-- C8 witness: the characterization applied to the Japan entry of the
concrete graph and to its one component. -/
theorem geo_concentration_witness :
    ({ country := "Japan", total_components := 1, critical_components := 1,
       tariff_vulnerable_components := 0, concentration_score := (1 : ℚ)/2,
       risk_level := "low" } : CountryAnalysis).concentration_score =
      roundTo 3 (((1 : ℚ) * 0.4 + (1 : ℚ) * 0.6) / max 1
        ((unusedComponentGraph.nodes.length : ℚ))) ∧
    ∃ e ∈ (identify_geographical_concentration unusedComponentGraph).country_concentration,
      e.country = "Japan" :=
  ⟨by
    have h := (geo_concentration_characterization.1 unusedComponentGraph
      { country := "Japan", total_components := 1, critical_components := 1,
        tariff_vulnerable_components := 0, concentration_score := (1 : ℚ)/2,
        risk_level := "low" } (by decide)).1
    simpa using h,
   geo_concentration_characterization.2.2 unusedComponentGraph ("component_j")
     { node_type := "component", name := "J", critical := true } ("Japan")
     (by decide) (by decide) (by decide)⟩

/-! ## C9: the tariff product-redesign rule -/

/-- C9.  Evaluation of the code at the example input of the claim: on the
example graph a China 25-percent `model_tariff_change` produces a critical
affected component whose estimated price increase is `10 > 3`, yet the
returned recommendations are exactly `relocate_sourcing`,
`strategic_pricing`, `tariff_exemptions` — no `product_redesign` — because
`generate_tariff_recommendations` guards that rule on a `critical` key of
the affected *product* dicts, which the pipeline never sets. -/
theorem tariff_product_redesign_never_fires :
    ((ScenarioModeler.model_tariff_change (ScenarioModeler.init exampleGraph)
        ("China") 25 none).1.affected_components.map
      (fun c => (c.component_id, c.estimated_price_increase)) =
      [(("component_c"), some (10 : ℚ))]) ∧
    ((exampleGraph.attrsOf ("component_c")).critical = true) ∧
    ((10 : ℚ) > 3) ∧
    ((ScenarioModeler.model_tariff_change (ScenarioModeler.init exampleGraph)
        ("China") 25 none).1.recommendations.map (fun r => r.action) =
      [("relocate_sourcing"), ("strategic_pricing"), ("tariff_exemptions")]) ∧
    ((ScenarioModeler.model_tariff_change (ScenarioModeler.init exampleGraph)
        ("China") 25 none).1.recommendations.all
      (fun r => !(r.action == "product_redesign")) = true) := by
  refine ⟨by decide, by decide, by norm_num, by decide, by decide⟩

/-! ## C10: pre-existing flags in compound scenarios -/

/-- C10 counterexample.  On a graph with sixteen components that are
`tariff_vulnerable` at ingestion, `combine_scenarios([])` classifies all
sixteen as affected but its `affected_components` list is truncated to the
first 15 entries — the sixteenth pre-flagged component (`c15`) does *not*
appear in the reported list, contradicting a universally quantified reading. -/
theorem compound_truncation_counterexample :
    (("c15", ({ node_type := "component", name := "C15",
                tariff_vulnerable := true } : NodeAttrs)) ∈ sixteenFlaggedGraph.nodes) ∧
    ((ScenarioModeler.combine_scenarios (ScenarioModeler.init sixteenFlaggedGraph)
        []).1.affected_components.all (fun c => !(c.component_id == "c15")) = true) ∧
    ((ScenarioModeler.combine_scenarios (ScenarioModeler.init sixteenFlaggedGraph)
        []).1.affected_components_count = 16) := by
  refine ⟨by decide, by decide, by decide⟩

/-- C10 amended.  `combine_scenarios` classifies as affected every component
node whose `tariff_vulnerable` (or other scenario) flag is true on the fresh
working copy, regardless of the input scenarios: every ingestion-flagged
component appears in the *collected* affected set with impact source
`tariff_vulnerable`, even for an empty scenario list; the reported
`affected_components` field is that collection truncated to its first 15
entries (with `affected_components_count` the untruncated length), so every
such component also appears in the reported list whenever at most 15
components are affected — as on the example graph, where the pre-flagged
component `C` is reported with source `tariff_vulnerable` although no
scenario touched it. -/
theorem compound_preexisting_flags_characterization :
    (∀ (g : Graph) (id : String) (a : NodeAttrs),
      (id, a) ∈ g.nodes → a.node_type = "component" → a.tariff_vulnerable = true →
      ∃ c ∈ ScenarioModeler.combine_collect_affected g,
        c.component_id = id ∧ "tariff_vulnerable" ∈ c.impact_sources) ∧
    (∀ g : Graph,
      ((ScenarioModeler.combine_scenarios (ScenarioModeler.init g) []).1.affected_components =
        (ScenarioModeler.combine_collect_affected g).take 15) ∧
      ((ScenarioModeler.combine_scenarios (ScenarioModeler.init g) []).1.affected_components_count =
        (ScenarioModeler.combine_collect_affected g).length)) ∧
    ((ScenarioModeler.combine_scenarios (ScenarioModeler.init exampleGraph)
        []).1.affected_components.map (fun c => (c.component_id, c.impact_sources)) =
      [(("component_c"), ["tariff_vulnerable"])]) := by
  refine ⟨?_, ?_, by decide⟩
  · intro g id a hmem ha htv
    refine ⟨{ component_id := id, component_name := a.name,
              critical := a.critical,
              impact_sources := ScenarioModeler.get_component_impact_sources a },
      ?_, rfl, ?_⟩
    · unfold ScenarioModeler.combine_collect_affected
      apply List.mem_filterMap.mpr
      refine ⟨(id, a), hmem, ?_⟩
      unfold ScenarioModeler.combine_affected_record
      rw [if_pos (by simp [ha, htv])]
    · unfold ScenarioModeler.get_component_impact_sources
      rw [htv]
      simp
  · intro g
    exact ⟨rfl, rfl⟩

/-- C10 witness: the characterization applied to the pre-flagged component
of the example graph. -/
theorem compound_preexisting_flags_witness :
    ∃ c ∈ ScenarioModeler.combine_collect_affected exampleGraph,
      c.component_id = "component_c" ∧ "tariff_vulnerable" ∈ c.impact_sources :=
  compound_preexisting_flags_characterization.1 exampleGraph ("component_c")
    { node_type := "component", name := "C", critical := true,
      tariff_vulnerable := true, category := "battery" }
    (by decide) (by decide) (by decide)

end NovaProphet
